import Mathlib

/-! The sensor-activation ledger of libsurvive.

A shallow embedding of `src/survive_sensor_activations.c`.

* `FLT` is the C type `FLT` (a `double` in the default build), as an executable model of
  IEEE-754 binary64 with round-to-nearest-even.
* `survive_timecode` is a 32-bit and `survive_long_timecode` a 64-bit unsigned integer; both are
  natural numbers here, and every operation that can wrap is written with an explicit modulus.
* C arrays are total functions on integer indices.  An access outside the declared bounds is
  undefined behaviour in C; the model gives such an index a cell of its own, and the statements
  about stored records name the bounds they assume.
* Declarations of `survive.h`, `linmath.h` and `math.h` that the file uses but does not contain
  are parameters (`Env`).
-/

/-! ## Binary64 arithmetic -/

/-- A binary64 value: NaN, an infinity, or the finite number `(-1)^neg * m * 2^(e - 1074)`.
The value is canonical when `m < 2^53`, `e ≤ 2045`, and `e = 0` or `2^52 ≤ m`. -/
inductive FLT where
  | nan
  | inf (neg : Bool)
  | fin (neg : Bool) (m e : Nat)
  deriving DecidableEq

namespace FLT

/-- The position of the highest set bit of `n` (0 for `n = 0`), for `n < 2^16384`. -/
def ilog2 (n : Nat) : Nat :=
  [8192, 4096, 2048, 1024, 512, 256, 128, 64, 32, 16, 8, 4, 2, 1].foldl
    (fun k s => if 1 <<< (k + s) ≤ n then k + s else k) 0

/-- Round the non-negative rational `n / d`, counted in units of `2^(-1074)`, to the nearest
binary64 value, ties to even, with the given sign; overflow gives an infinity. -/
def round (neg : Bool) (n d : Nat) : FLT :=
  let e := ilog2 (n / d) - 52
  let den := d <<< e
  let q := n / den
  let r := n % den
  let m := if den < 2 * r ∨ (2 * r = den ∧ q % 2 = 1) then q + 1 else q
  if m = 2 ^ 53 then (if 2045 ≤ e then inf neg else fin neg (2 ^ 52) (e + 1))
  else if 2045 < e then inf neg else fin neg m e

/-- The value of the decimal literal `num / den`. -/
def lit (num den : Nat) : FLT := round false (num <<< 1074) den

/-- Conversion of an unsigned integer to `FLT`. -/
def ofNat (n : Nat) : FLT := round false (n <<< 1074) 1

/-- Conversion of a signed integer to `FLT`. -/
def ofInt (i : Int) : FLT := round (decide (i < 0)) (i.natAbs <<< 1074) 1

/-- The constant `+0.0`, which is also the all-zero bit pattern `memset` leaves. -/
def zero : FLT := fin false 0 0

def neg : FLT → FLT
  | nan => nan
  | inf s => inf (!s)
  | fin s m e => fin (!s) m e

def fabs : FLT → FLT
  | nan => nan
  | inf _ => inf false
  | fin _ m e => fin false m e

def add : FLT → FLT → FLT
  | nan, _ => nan
  | _, nan => nan
  | inf s, inf t => if s = t then inf s else nan
  | inf s, fin _ _ _ => inf s
  | fin _ _ _, inf t => inf t
  | fin s m e, fin t n f =>
    let a := m <<< e
    let b := n <<< f
    if s = t then round s (a + b) 1
    else if b < a then round s (a - b) 1
    else if a < b then round t (b - a) 1
    else fin false 0 0

def sub (x y : FLT) : FLT := add x (neg y)

def mul : FLT → FLT → FLT
  | nan, _ => nan
  | _, nan => nan
  | inf s, inf t => inf (xor s t)
  | inf s, fin t n _ => if n = 0 then nan else inf (xor s t)
  | fin s m _, inf t => if m = 0 then nan else inf (xor s t)
  | fin s m e, fin t n f => round (xor s t) ((m * n) <<< (e + f)) (1 <<< 1074)

def div : FLT → FLT → FLT
  | nan, _ => nan
  | _, nan => nan
  | inf _, inf _ => nan
  | inf s, fin t _ _ => inf (xor s t)
  | fin s _ _, inf t => fin (xor s t) 0 0
  | fin s m e, fin t n f =>
    if n = 0 then (if m = 0 then nan else inf (xor s t))
    else round (xor s t) (m <<< (e + 1074)) (n <<< f)

/-- The place of a value in the numeric order, in units of `2^(-1074)`; NaN has none, and the
infinities sit at `±2^2100`, beyond every finite value. -/
def key : FLT → Option Int
  | nan => none
  | inf s => some (if s then -((1 <<< 2100 : Nat) : Int) else ((1 <<< 2100 : Nat) : Int))
  | fin s m e => some (if s then -((m <<< e : Nat) : Int) else ((m <<< e : Nat) : Int))

/-- The C comparison `x < y`: false when either side is NaN. -/
def lt (x y : FLT) : Bool :=
  match key x, key y with
  | some a, some b => decide (a < b)
  | _, _ => false

/-- The C comparison `x > y`. -/
def gt (x y : FLT) : Bool := lt y x

/-- The C comparison `x == y`: false when either side is NaN, true for `+0.0 == -0.0`. -/
def eq (x y : FLT) : Bool :=
  match key x, key y with
  | some a, some b => decide (a = b)
  | _, _ => false

def isnan : FLT → Bool
  | nan => true
  | _ => false

def isfinite : FLT → Bool
  | fin _ _ _ => true
  | _ => false

/-- The C conversion `(uint32_t)x`: truncation toward zero; it is undefined (`none`) when the
truncated value does not fit. -/
def toUInt32 : FLT → Option Nat
  | fin s m e =>
    let t := (m <<< e) >>> 1074
    if t = 0 then some 0 else if s then none else if t < 2 ^ 32 then some t else none
  | _ => none

end FLT

/-! ## Declarations the source file takes from its headers -/

/-- The constants and library functions that `survive_sensor_activations.c` uses and that are
declared elsewhere: the array bounds of `survive.h`, `exp` and `sqrt` of `math.h`, and
`norm3d` and `dist3d` of `linmath.h`. -/
structure Env where
  SENSORS_PER_OBJECT : Int
  NUM_GEN1_LIGHTHOUSES : Int
  NUM_GEN2_LIGHTHOUSES : Int
  exp : FLT → FLT
  sqrt : FLT → FLT
  norm3d : (Int → FLT) → FLT
  dist3d : (Int → FLT) → (Int → FLT) → FLT

/-- The constant `M_PI` of `math.h`, the binary64 value nearest to π. -/
def M_PI : FLT := FLT.lit 314159265358979323846 100000000000000000000

def UINT32_MAX : Nat := 4294967295

def UINT64_MAX : Nat := 18446744073709551615

/-- Unsigned 64-bit subtraction `a - b`, for `a, b < 2^64`. -/
def sub64 (a b : Nat) : Nat := (a + 2 ^ 64 - b) % 2 ^ 64

/-- Modelled from the spec: the per-lighthouse data of the context, of which the ledger reads
only the "position known" flag. -/
structure BaseStationData where
  PositionSet : Bool

/-- Modelled from the spec: the tracked-object context, of which the ledger reads the
active-lighthouse count (a C `int`) and the per-lighthouse data. -/
structure SurviveContext where
  activeLighthouses : Int
  bsd : Int → BaseStationData

/-- Modelled from the spec: the tracked object, of which the ledger reads the sensor count and
the context pointer (`none` is `NULL`).  `sensor_ct` is an `int8_t` in `survive.h`, so the
`uint8_t` loop counter of `SurviveSensorActivations_valid_counts` reaches it without wrapping. -/
structure SurviveObject where
  sensor_ct : Int
  ctx : Option SurviveContext

/-- The struct `SurviveSensorActivations`, with the fields the source file reads or writes.
`so` is the back-reference (`none` is `NULL`). -/
structure SurviveSensorActivations where
  so : Option SurviveObject
  lh_gen : Int
  angles : Int → Int → Int → FLT
  angles_center_x : Int → Int → FLT
  angles_center_dev : Int → Int → FLT
  angles_center_cnt : Int → Int → Int
  timecode : Int → Int → Int → Nat
  lengths : Int → Int → Int → Nat
  hits : Int → Int → Int → Nat
  last_imu : Nat
  last_light : Nat
  last_light_change : Nat
  last_movement : Nat
  accel : Int → FLT
  gyro : Int → FLT
  mag : Int → FLT
  runtime_offset : FLT
  imu_init_cnt : Int

/-- The file-scope variables of the source file: the five thresholds, all `0` until a
constructor call loads them, and the function-scope `static int bad_time_cnt`. -/
structure Globals where
  moveThresholdGyro : FLT
  moveThresholdAcc : FLT
  moveThresholdAng : FLT
  filterLightChange : FLT
  filterOutlierCriteria : FLT
  bad_time_cnt : Int

/-- The file-scope variables at program start. -/
def Globals.initial : Globals :=
  { moveThresholdGyro := FLT.zero, moveThresholdAcc := FLT.zero, moveThresholdAng := FLT.zero,
    filterLightChange := FLT.zero, filterOutlierCriteria := FLT.zero, bad_time_cnt := 0 }

/-- The values `survive_configf` returns for the five configuration items of the file. -/
structure Config where
  MOVMENT_THRESHOLD_GYRO : FLT
  MOVMENT_THRESHOLD_ACC : FLT
  MOVMENT_THRESHOLD_ANG : FLT
  FILTER_THRESHOLD_ANG : FLT
  FILTER_LIGHT_OUTLIER_CRITERIA : FLT

/-- The defaults the `STATIC_CONFIG_ITEM` lines give: `.075`, `.03`, `.015`, `50.`, `0.5`. -/
def Config.defaults : Config :=
  { MOVMENT_THRESHOLD_GYRO := FLT.lit 75 1000, MOVMENT_THRESHOLD_ACC := FLT.lit 3 100,
    MOVMENT_THRESHOLD_ANG := FLT.lit 15 1000, FILTER_THRESHOLD_ANG := FLT.lit 50 1,
    FILTER_LIGHT_OUTLIER_CRITERIA := FLT.lit 5 10 }

/-- The tag `hdr.pt` of an event; the file tests it only against `POSERDATA_LIGHT_GEN2`. -/
inductive PoserType where
  | POSERDATA_LIGHT
  | POSERDATA_LIGHT_GEN2
  | POSERDATA_OTHER
  deriving DecidableEq

structure PoserData where
  pt : PoserType
  timecode : Nat

structure PoserDataLight where
  hdr : PoserData
  sensor_id : Int
  lh : Int
  angle : FLT

structure PoserDataLightGen1 where
  common : PoserDataLight
  acode : Int
  length : FLT

structure PoserDataLightGen2 where
  common : PoserDataLight
  plane : Int

structure PoserDataIMU where
  hdr : PoserData
  accel : Int → FLT
  gyro : Int → FLT
  mag : Int → FLT

/-- The assignment `a[i][j][k] = v`. -/
def set3 {α : Type} (a : Int → Int → Int → α) (i j k : Int) (v : α) : Int → Int → Int → α :=
  fun x y z => if x = i ∧ y = j ∧ z = k then v else a x y z

/-- The assignment `a[j][k] = v`. -/
def set2 {α : Type} (a : Int → Int → α) (j k : Int) (v : α) : Int → Int → α :=
  fun y z => if y = j ∧ z = k then v else a y z

/-! ## The functions of the source file -/

/-- The initializer `(uint32_t)(48000000 * (16.7) / 1000) + 5000`; the conversion is defined,
and the model yields `0` where it would not be. -/
def SurviveSensorActivations_default_tolerance : Nat :=
  (((FLT.div (FLT.mul (FLT.ofInt 48000000) (FLT.lit 167 10)) (FLT.ofInt 1000)).toUInt32.getD 0)
    + 5000) % 2 ^ 32

def SurviveSensorActivations_last_reading (self : SurviveSensorActivations)
    (sensor_idx : Nat) (lh axis : Int) : Nat :=
  if self.lh_gen ≠ 1 ∧ lh < 2 ∧ self.lengths sensor_idx lh axis = 0 then UINT64_MAX
  else if (self.angles sensor_idx lh axis).isnan then UINT64_MAX
  else self.timecode sensor_idx lh axis

def SurviveSensorActivations_time_since_last_reading (self : SurviveSensorActivations)
    (sensor_idx : Nat) (lh axis : Int) : Nat :=
  let last_reading := SurviveSensorActivations_last_reading self sensor_idx lh axis
  let timecode_now := self.last_light
  if last_reading > timecode_now then UINT32_MAX
  else timecode_now - last_reading

def SurviveSensorActivations_is_reading_valid (self : SurviveSensorActivations)
    (tolerance : Nat) (sensor_idx : Nat) (lh axis : Int) : Bool :=
  decide (SurviveSensorActivations_time_since_last_reading self sensor_idx lh axis ≤ tolerance)

def SurviveSensorActivations_last_time (self : SurviveSensorActivations) : Nat :=
  if self.last_imu > self.last_light then self.last_imu else self.last_light

/-- The function returns `none` where the C `assert(last_move <= last_time)` fails. -/
def SurviveSensorActivations_stationary_time (self : SurviveSensorActivations) : Option Nat :=
  let last_time := SurviveSensorActivations_last_time self
  let last_move := self.last_movement
  if last_move = 0 then some 0
  else if last_move ≤ last_time then some (last_time - last_move)
  else none

def SurviveSensorActivations_add_imu (E : Env) (G : Globals) (self : SurviveSensorActivations)
    (imuData : PoserDataIMU) : SurviveSensorActivations :=
  let self := { self with last_imu := imuData.hdr.timecode }
  if self.imu_init_cnt > 0 then { self with imu_init_cnt := self.imu_init_cnt - 1 }
  else
    let self :=
      if (self.accel 0).isnan then
        { self with
          accel := fun i => if 0 ≤ i ∧ i < 3 then imuData.accel i else self.accel i
          gyro := fun i => if 0 ≤ i ∧ i < 3 then imuData.gyro i else self.gyro i
          mag := fun i => if 0 ≤ i ∧ i < 3 then imuData.mag i else self.mag i
          last_movement := imuData.hdr.timecode }
      else
        { self with
          accel := fun i => if 0 ≤ i ∧ i < 3 then
            FLT.add (FLT.mul (FLT.lit 98 100) (self.accel i)) (FLT.mul (FLT.lit 2 100) (imuData.accel i))
            else self.accel i
          gyro := fun i => if 0 ≤ i ∧ i < 3 then
            FLT.add (FLT.mul (FLT.lit 98 100) (self.gyro i)) (FLT.mul (FLT.lit 2 100) (imuData.gyro i))
            else self.gyro i
          mag := fun i => if 0 ≤ i ∧ i < 3 then
            FLT.add (FLT.mul (FLT.lit 98 100) (self.mag i)) (FLT.mul (FLT.lit 2 100) (imuData.mag i))
            else self.mag i }
    if FLT.gt (E.norm3d imuData.gyro) G.moveThresholdGyro
        ∨ FLT.gt (E.dist3d self.accel imuData.accel) G.moveThresholdAcc then
      { self with last_movement := imuData.hdr.timecode }
    else self

def norm_pdf (E : Env) (x mean std : FLT) : FLT :=
  let scale := FLT.div (FLT.lit 1 1) (E.sqrt (FLT.mul M_PI (FLT.ofInt 2)))
  let r := FLT.div (FLT.sub x mean) std
  let r := FLT.mul (FLT.mul r r) (FLT.neg (FLT.lit 5 10))
  FLT.mul scale (E.exp r)

def SurviveSensorActivations_update_center (self : SurviveSensorActivations) (alpha : FLT)
    (lh axis : Int) (oldval angle : FLT) : SurviveSensorActivations :=
  let mean_sum := self.angles_center_x lh axis
  let dev := self.angles_center_dev lh axis
  let cnt := self.angles_center_cnt lh axis
  if cnt ≠ 0 then
    let beta := FLT.sub (FLT.lit 1 1) alpha
    let mean_sum := FLT.mul mean_sum beta
    let dev := FLT.mul dev beta
    let cnt := if ¬ oldval.isfinite then cnt + 1 else cnt
    let var := FLT.sub mean_sum angle
    let dev := FLT.add dev (FLT.mul (FLT.mul alpha var) var)
    let mean_sum := FLT.add mean_sum (FLT.mul alpha angle)
    { self with
      angles_center_x := set2 self.angles_center_x lh axis mean_sum
      angles_center_dev := set2 self.angles_center_dev lh axis dev
      angles_center_cnt := set2 self.angles_center_cnt lh axis cnt }
  else
    { self with
      angles_center_x := set2 self.angles_center_x lh axis angle
      angles_center_dev := set2 self.angles_center_dev lh axis FLT.zero
      angles_center_cnt := set2 self.angles_center_cnt lh axis (cnt + 1) }

/-- The decision of `SurviveSensorActivations_check_outlier`: `true` is the jump to
`reject_data`, `false` the jump to `accept_data`. -/
def check_outlier_rejects (E : Env) (G : Globals) (self : SurviveSensorActivations)
    (sensor_id lh axis : Int) (timecode : Nat) (angle : FLT) : Bool :=
  let oldangle := self.angles sensor_id lh axis
  if FLT.eq (self.angles_center_dev lh axis) (FLT.ofInt 0) then false
  else
    let data_timecode := self.timecode sensor_id lh axis
    let change_rate :=
      FLT.mul (FLT.div (FLT.fabs (FLT.sub oldangle angle)) (FLT.ofNat (sub64 timecode data_timecode)))
        (FLT.lit 48000000 1)
    if data_timecode ≠ 0 ∧ FLT.gt change_rate G.filterLightChange then true
    else
      let dev := self.angles_center_dev lh axis
      let dev := if FLT.lt dev (FLT.lit 1 10) then FLT.lit 1 10 else dev
      let P := norm_pdf E angle (self.angles_center_x lh axis) dev
      let cnt := match self.so with
        | some so => so.sensor_ct
        | none => self.angles_center_cnt lh axis
      let chauvenet_criterion := FLT.mul P (FLT.ofInt cnt)
      if FLT.lt chauvenet_criterion G.filterOutlierCriteria then true else false

/-- The result is the returned flag (`true` for a rejected sample) and the state after the
center update; the diagnostic line written on the reject path does not touch the ledger. -/
def SurviveSensorActivations_check_outlier (E : Env) (G : Globals)
    (self : SurviveSensorActivations) (sensor_id lh axis : Int) (timecode : Nat) (angle : FLT) :
    Bool × SurviveSensorActivations :=
  let oldangle := self.angles sensor_id lh axis
  if check_outlier_rejects E G self sensor_id lh axis timecode angle then
    (true, SurviveSensorActivations_update_center self (FLT.lit 5 100) lh axis oldangle angle)
  else
    (false, SurviveSensorActivations_update_center self (FLT.lit 1 10) lh axis oldangle angle)

/-- The four output pointers of `SurviveSensorActivations_valid_counts`; `none` is `NULL`.
The three counters are `uint32_t`, the per-lighthouse-axis table is an array of `size_t`. -/
structure Counts where
  meas_cnt : Option Nat
  lh_count : Option Nat
  axis_cnt : Option Nat
  meas_for_lhs_axis : Option (Int → Nat)

/-- The body of the innermost loop of `SurviveSensorActivations_valid_counts`, for one axis; the
loop state is the counters and the flags `seenLH` and `seenAxis`. -/
def valid_counts_axis (self : SurviveSensorActivations) (sensor_time_window : Nat) (lh : Int)
    (sensor : Nat) (acc : Counts × Bool × Bool) (axis : Nat) : Counts × Bool × Bool :=
  let last_reading :=
    SurviveSensorActivations_time_since_last_reading self sensor lh axis % 2 ^ 32
  if last_reading < sensor_time_window then
    ({ meas_cnt := acc.1.meas_cnt.map (fun v => (v + 1) % 2 ^ 32)
       axis_cnt := if acc.2.2 then acc.1.axis_cnt else acc.1.axis_cnt.map (fun v => (v + 1) % 2 ^ 32)
       lh_count := if acc.2.1 then acc.1.lh_count else acc.1.lh_count.map (fun v => (v + 1) % 2 ^ 32)
       meas_for_lhs_axis := acc.1.meas_for_lhs_axis.map
        (fun a i => if i = lh * 2 + axis then (a i + 1) % 2 ^ 64 else a i) },
     true, true)
  else acc

/-- The body of the sensor loop: `seenAxis` starts at `false` for every sensor. -/
def valid_counts_sensor (self : SurviveSensorActivations) (sensor_time_window : Nat) (lh : Int)
    (acc : Counts × Bool) (sensor : Nat) : Counts × Bool :=
  let r := (List.range 2).foldl (valid_counts_axis self sensor_time_window lh sensor)
    (acc.1, acc.2, false)
  (r.1, r.2.1)

/-- The body of the lighthouse loop: a lighthouse without `PositionSet` is skipped, and
`seenLH` starts at `false` for every lighthouse. -/
def valid_counts_lh (self : SurviveSensorActivations) (so : SurviveObject) (ctx : SurviveContext)
    (sensor_time_window : Nat) (c : Counts) (lh : Nat) : Counts :=
  if ¬ (ctx.bsd lh).PositionSet then c
  else
    ((List.range so.sensor_ct.toNat).foldl (valid_counts_sensor self sensor_time_window lh)
      (c, false)).1

/-- The function dereferences `self->so->ctx`; the result is `none` where that pointer chain
holds a `NULL`.  The ledger itself is not written. -/
def SurviveSensorActivations_valid_counts (self : SurviveSensorActivations) (tolerance : Nat)
    (c : Counts) : Option Counts :=
  let sensor_time_window :=
    (if tolerance = 0 then SurviveSensorActivations_default_tolerance else tolerance) % 2 ^ 32
  match self.so with
  | none => none
  | some so =>
    match so.ctx with
    | none => none
    | some ctx =>
      some ((List.range ctx.activeLighthouses.toNat).foldl
        (valid_counts_lh self so ctx sensor_time_window) c)

/-- The closing lines of both ingest functions' light bookkeeping:
`if (timecode > self->last_light) self->last_light = timecode;`. -/
def update_last_light (self : SurviveSensorActivations) (timecode : Nat) :
    SurviveSensorActivations :=
  if timecode > self.last_light then { self with last_light := timecode } else self

/-- The result is the returned flag and the state after the call. -/
def SurviveSensorActivations_add_gen2 (E : Env) (G : Globals) (self : SurviveSensorActivations)
    (lightData : PoserDataLightGen2) : Bool × SurviveSensorActivations :=
  let self := { self with lh_gen := 1 }
  let l := lightData.common
  if l.hdr.pt = PoserType.POSERDATA_LIGHT_GEN2 then
    let axis := lightData.plane
    if l.sensor_id ≥ E.SENSORS_PER_OBJECT then (false, self)
    else
      let r := SurviveSensorActivations_check_outlier E G self l.sensor_id l.lh axis
        l.hdr.timecode l.angle
      let self := r.2
      if ¬ r.1 then
        let long_timecode := l.hdr.timecode
        let angle := self.angles l.sensor_id l.lh axis
        let self :=
          if ¬ angle.isnan ∧ FLT.gt (FLT.fabs (FLT.sub angle l.angle)) G.moveThresholdAng then
            { self with last_light_change := long_timecode, last_movement := long_timecode }
          else self
        let self :=
          if angle.isnan then { self with last_light_change := long_timecode } else self
        let self := { self with
          timecode := set3 self.timecode l.sensor_id l.lh axis l.hdr.timecode
          angles := set3 self.angles l.sensor_id l.lh axis l.angle }
        (true, update_last_light self l.hdr.timecode)
      else (false, self)
  else (true, update_last_light self l.hdr.timecode)

def SurviveSensorActivations_reset (E : Env) (self : SurviveSensorActivations) :
    SurviveSensorActivations :=
  { so := self.so
    lh_gen := 0
    angles := fun i j h =>
      if 0 ≤ i ∧ i < E.SENSORS_PER_OBJECT ∧ 0 ≤ j ∧ j < E.NUM_GEN2_LIGHTHOUSES ∧ 0 ≤ h ∧ h < 2
      then FLT.nan else FLT.zero
    angles_center_x := fun j h =>
      if 0 < E.SENSORS_PER_OBJECT ∧ 0 ≤ j ∧ j < E.NUM_GEN2_LIGHTHOUSES ∧ 0 ≤ h ∧ h < 2
      then FLT.nan else FLT.zero
    angles_center_dev := fun _ _ => FLT.zero
    angles_center_cnt := fun _ _ => 0
    timecode := fun _ _ _ => 0
    lengths := fun _ _ _ => 0
    hits := fun _ _ _ => 0
    last_imu := 0
    last_light := 0
    last_light_change := 0
    last_movement := 0
    accel := fun i => if 0 ≤ i ∧ i < 3 then FLT.nan else FLT.zero
    gyro := fun _ => FLT.zero
    mag := fun _ => FLT.zero
    runtime_offset := FLT.zero
    imu_init_cnt := 30 }

/-- The constructor: `so` is the object pointer (`none` is `NULL`), `cfg` the answers of
`survive_configf`, `self` the memory the ledger is built in.  The result is the file-scope
variables and the ledger after the call. -/
def SurviveSensorActivations_ctor (E : Env) (cfg : Config) (G : Globals)
    (so : Option SurviveObject) (self : SurviveSensorActivations) :
    Globals × SurviveSensorActivations :=
  let G := match so with
    | some _ =>
      { G with
        moveThresholdAcc := cfg.MOVMENT_THRESHOLD_ACC
        moveThresholdGyro := cfg.MOVMENT_THRESHOLD_GYRO
        moveThresholdAng := cfg.MOVMENT_THRESHOLD_ANG
        filterLightChange := cfg.FILTER_THRESHOLD_ANG
        filterOutlierCriteria := cfg.FILTER_LIGHT_OUTLIER_CRITERIA }
    | none => G
  (G, { SurviveSensorActivations_reset E self with so := so, lh_gen := -1 })

/-- The generation-1 ingest.  The result is `none` where the C code has no defined result: the
accept path dereferences `self->so`, and converts `length * 48000000` to `uint32_t`.  Otherwise
it is the returned flag, the state and the file-scope variables after the call; the error and
warning lines go to the context and leave the ledger as it is. -/
def SurviveSensorActivations_add (E : Env) (G : Globals) (self : SurviveSensorActivations)
    (_lightData : PoserDataLightGen1) : Option (Bool × SurviveSensorActivations × Globals) :=
  let self := { self with lh_gen := 0 }
  let axis := _lightData.acode % 2
  let lightData := _lightData.common
  let r := SurviveSensorActivations_check_outlier E G self lightData.sensor_id lightData.lh axis
    lightData.hdr.timecode lightData.angle
  let self := r.2
  if r.1 then some (false, self, G)
  else
    let length := self.lengths lightData.sensor_id lightData.lh axis
    let angle := self.angles lightData.sensor_id lightData.lh axis
    let self := { self with
      hits := set3 self.hits lightData.sensor_id lightData.lh axis
        ((self.hits lightData.sensor_id lightData.lh axis + 1) % 2 ^ 64) }
    let self :=
      if length = 0 ∨ FLT.gt (FLT.fabs (FLT.sub angle lightData.angle)) G.moveThresholdAng then
        { self with last_light_change := lightData.hdr.timecode
                    last_movement := lightData.hdr.timecode }
      else self
    match self.so with
    | none => none
    | some _ =>
      match (FLT.mul _lightData.length (FLT.ofInt 48000000)).toUInt32 with
      | none => none
      | some new_length =>
        let self := { self with
          angles := set3 self.angles lightData.sensor_id lightData.lh axis lightData.angle
          timecode := set3 self.timecode lightData.sensor_id lightData.lh axis
            lightData.hdr.timecode
          lengths := set3 self.lengths lightData.sensor_id lightData.lh axis new_length }
        let self := update_last_light self lightData.hdr.timecode
        let G :=
          if self.last_imu ≠ 0 ∧
              FLT.gt (FLT.fabs (FLT.sub
                (FLT.div (FLT.ofNat lightData.hdr.timecode) (FLT.lit 48000000 1))
                (FLT.div (FLT.ofNat self.last_imu) (FLT.lit 48000000 1)))) (FLT.ofInt 1) then
            { G with bad_time_cnt := G.bad_time_cnt + 1 }
          else G
        some (true, self, G)

def make_long_timecode (prev current : Nat) : Nat :=
  let rtn := current ||| (prev &&& 0xFFFFFFFF00000000)
  let rtn :=
    if rtn < prev ∧ (rtn + 0x80000000) % 2 ^ 64 < prev then (rtn + 0x100000000) % 2 ^ 64 else rtn
  let rtn :=
    if rtn > prev ∧ (prev + 0x80000000) % 2 ^ 64 < rtn ∧ rtn > 0x100000000 then rtn - 0x100000000
    else rtn
  rtn

def SurviveSensorActivations_long_timecode_imu (self : SurviveSensorActivations)
    (timecode : Nat) : Nat :=
  make_long_timecode self.last_imu timecode

def SurviveSensorActivations_long_timecode_light (self : SurviveSensorActivations)
    (timecode : Nat) : Nat :=
  make_long_timecode self.last_light timecode

/-! ## Scenarios the properties speak of -/

/-- Feeding 32-bit counter values to `make_long_timecode` one at a time, each call taking the
value reconstructed by the call before it as `prev`; the result lists the reconstructed values. -/
def feed_timecodes (prev : Nat) : List Nat → List Nat
  | [] => []
  | current :: rest =>
    make_long_timecode prev current :: feed_timecodes (make_long_timecode prev current) rest

/-- The number of triples `(lh, sensor, axis)` with `lh < activeLighthouses`, `PositionSet[lh]`
set, `sensor < sensor_ct` and `axis < 2` that satisfy `P`. -/
def count_triples (so : SurviveObject) (ctx : SurviveContext) (P : Nat → Nat → Nat → Bool) :
    Nat :=
  ((List.range ctx.activeLighthouses.toNat).map (fun (lh : Nat) =>
    if (ctx.bsd lh).PositionSet then
      ((List.range so.sensor_ct.toNat).map (fun (sensor : Nat) =>
        ((List.range 2).map (fun (axis : Nat) => if P lh sensor axis then 1 else 0)).sum)).sum
    else 0)).sum

/-- A record is unseen when `SurviveSensorActivations_last_reading` answers with its sentinel:
outside generation-2 mode a zero pulse length (lighthouses below 2), or a NaN angle. -/
def record_unseen (self : SurviveSensorActivations) (sensor : Nat) (lh axis : Int) : Bool :=
  decide (self.lh_gen ≠ 1 ∧ lh < 2 ∧ self.lengths sensor lh axis = 0)
    || (self.angles sensor lh axis).isnan

/-- The tolerance in the words of the specification: the given one, or `806600` ticks when the
given one is `0`. -/
def spec_tolerance (tolerance : Nat) : Nat := if tolerance = 0 then 806600 else tolerance

/-- A record is unseen in the words of the specification: its angle is NaN, or, outside
generation-2 mode, its pulse length is 0, whatever its lighthouse. -/
def spec_unseen (self : SurviveSensorActivations) (sensor : Nat) (lh axis : Int) : Bool :=
  decide (self.lh_gen ≠ 1 ∧ self.lengths sensor lh axis = 0)
    || (self.angles sensor lh axis).isnan

/-- The freshness test in the words of the specification: the record is not unseen and
`last_light - recordTimecode < T`, the difference taken in the integers. -/
def spec_fresh (self : SurviveSensorActivations) (T : Nat) (lh sensor axis : Nat) : Bool :=
  !spec_unseen self sensor lh axis
    && decide ((self.last_light : Int) - (self.timecode sensor lh axis : Int) < (T : Int))

/-- The freshness test on 32-bit quantities: the record is not unseen, its timecode is not
after `last_light`, and the low 32 bits of `last_light - recordTimecode` are below `W`. -/
def window_fresh (self : SurviveSensorActivations) (W : Nat) (lh sensor axis : Nat) : Bool :=
  !record_unseen self sensor lh axis
    && decide (self.timecode sensor lh axis ≤ self.last_light)
    && decide ((self.last_light - self.timecode sensor lh axis) % 2 ^ 32 < W)

/-- An instance of the header declarations for the concrete runs below: the array bounds
libsurvive ships (32 sensors, 2 generation-1 and 16 generation-2 lighthouses).  The library
functions are stand-ins that answer NaN; no concrete run below evaluates them. -/
def Env.reference : Env :=
  { SENSORS_PER_OBJECT := 32, NUM_GEN1_LIGHTHOUSES := 2, NUM_GEN2_LIGHTHOUSES := 16,
    exp := fun _ => FLT.nan, sqrt := fun _ => FLT.nan,
    norm3d := fun _ => FLT.nan, dist3d := fun _ _ => FLT.nan }

/-- A context with two active lighthouses, of which lighthouse 0 has a known position. -/
def scenario_ctx : SurviveContext :=
  { activeLighthouses := 2, bsd := fun lh => { PositionSet := decide (lh = 0) } }

/-- A tracked object with four sensors in `scenario_ctx`. -/
def scenario_so : SurviveObject := { sensor_ct := 4, ctx := some scenario_ctx }

/-- The memory a ledger is constructed in, before the constructor runs: all zero here. -/
def blank_memory : SurviveSensorActivations :=
  { so := none, lh_gen := 0, angles := fun _ _ _ => FLT.zero,
    angles_center_x := fun _ _ => FLT.zero, angles_center_dev := fun _ _ => FLT.zero,
    angles_center_cnt := fun _ _ => 0, timecode := fun _ _ _ => 0, lengths := fun _ _ _ => 0,
    hits := fun _ _ _ => 0, last_imu := 0, last_light := 0, last_light_change := 0,
    last_movement := 0, accel := fun _ => FLT.zero, gyro := fun _ => FLT.zero,
    mag := fun _ => FLT.zero, runtime_offset := FLT.zero, imu_init_cnt := 0 }

/-- A generation-2 light event. -/
def gen2_event (sensor_id lh axis : Int) (timecode : Nat) (angle : FLT) : PoserDataLightGen2 :=
  { common := { hdr := { pt := PoserType.POSERDATA_LIGHT_GEN2, timecode := timecode },
                sensor_id := sensor_id, lh := lh, angle := angle },
    plane := axis }

/-- The output pointers of a coverage query that asks for the measurement count only, the
counter starting at `0`. -/
def meas_only : Counts :=
  { meas_cnt := some 0, lh_count := none, axis_cnt := none, meas_for_lhs_axis := none }

/-- The file-scope variables after a ledger was constructed for `scenario_so` with the default
thresholds. -/
def scenario_globals : Globals :=
  (SurviveSensorActivations_ctor Env.reference Config.defaults Globals.initial
    (some scenario_so) blank_memory).1

/-- The ledger constructed for `scenario_so` with the default thresholds. -/
def scenario_fresh : SurviveSensorActivations :=
  (SurviveSensorActivations_ctor Env.reference Config.defaults Globals.initial
    (some scenario_so) blank_memory).2

/-- The ledger of the end-to-end scenario after its first event: sensor 0, lighthouse 0,
axis 0, timecode 1,000,000, angle 0.2. -/
def scenario_first : SurviveSensorActivations :=
  (SurviveSensorActivations_add_gen2 Env.reference scenario_globals scenario_fresh
    (gen2_event 0 0 0 1000000 (FLT.lit 2 10))).2

/-- The ledger of the end-to-end scenario after a further event on sensor 1 of the same
lighthouse and axis, five ticks later. -/
def scenario_two_sensors : SurviveSensorActivations :=
  (SurviveSensorActivations_add_gen2 Env.reference scenario_globals scenario_first
    (gen2_event 1 0 0 1000005 (FLT.lit 2 10))).2

/-- Feeding a list of generation-2 events to the ledger, one after the other. -/
def feed_gen2 (E : Env) (G : Globals) (self : SurviveSensorActivations)
    (events : List PoserDataLightGen2) : SurviveSensorActivations :=
  events.foldl (fun s ev => (SurviveSensorActivations_add_gen2 E G s ev).2) self

/-- The ledger of the end-to-end scenario after its second event: the same slot, timecode
1,500,000, angle 5.2. -/
def scenario_second : SurviveSensorActivations :=
  (SurviveSensorActivations_add_gen2 Env.reference scenario_globals scenario_first
    (gen2_event 0 0 0 1500000 (FLT.lit 52 10))).2

/-- A fresh ledger for `scenario_so` after one event with angle 0.0: sensor 0, lighthouse 0,
axis 0, timecode 1,000,000. -/
def scenario_zero_baseline : SurviveSensorActivations :=
  (SurviveSensorActivations_add_gen2 Env.reference scenario_globals scenario_fresh
    (gen2_event 0 0 0 1000000 (FLT.lit 0 1))).2

/-- A generation-1 light event; the axis is the low bit of `acode`. -/
def gen1_event (sensor_id lh acode : Int) (timecode : Nat) (angle length : FLT) :
    PoserDataLightGen1 :=
  { common := { hdr := { pt := PoserType.POSERDATA_LIGHT, timecode := timecode },
                sensor_id := sensor_id, lh := lh, angle := angle },
    acode := acode, length := length }

/-! ## The snapshot difference -/

/-- The body of the innermost loop of `SurviveSensorActivations_difference` for one slot; the
loop state is `rtn` and `cnt`. -/
def difference_slot (rhs lhs : SurviveSensorActivations) (i lh : Nat) (acc : FLT × Int)
    (axis : Nat) : FLT × Int :=
  if rhs.lengths i lh axis > 0 ∧ lhs.lengths i lh axis > 0 then
    let diff := FLT.sub (rhs.angles i lh axis) (lhs.angles i lh axis)
    (FLT.add acc.1 (FLT.mul diff diff), acc.2 + 1)
  else acc

def SurviveSensorActivations_difference (E : Env) (rhs lhs : SurviveSensorActivations) : FLT :=
  let r := (List.range E.SENSORS_PER_OBJECT.toNat).foldl (fun acc i =>
    (List.range E.NUM_GEN1_LIGHTHOUSES.toNat).foldl (fun acc lh =>
      (List.range 2).foldl (difference_slot rhs lhs i lh) acc) acc) (FLT.ofInt 0, (0 : Int))
  FLT.div r.1 (FLT.ofInt r.2)

/-! ## Sequences of ingest calls -/

/-- One call of an ingest function. -/
inductive Ingest where
  | imu (imuData : PoserDataIMU)
  | gen2 (lightData : PoserDataLightGen2)
  | gen1 (lightData : PoserDataLightGen1)

/-- The file-scope variables and the ledger after one ingest call; `none` where the call has no
defined result. -/
def ingest (E : Env) (w : Globals × SurviveSensorActivations) :
    Ingest → Option (Globals × SurviveSensorActivations)
  | Ingest.imu imuData => some (w.1, SurviveSensorActivations_add_imu E w.1 w.2 imuData)
  | Ingest.gen2 lightData => some (w.1, (SurviveSensorActivations_add_gen2 E w.1 w.2 lightData).2)
  | Ingest.gen1 lightData =>
    (SurviveSensorActivations_add E w.1 w.2 lightData).map (fun r => (r.2.2, r.2.1))

/-- The file-scope variables and the ledger after a sequence of ingest calls. -/
def ingest_all (E : Env) (w : Globals × SurviveSensorActivations) :
    List Ingest → Option (Globals × SurviveSensorActivations)
  | [] => some w
  | op :: rest =>
    match ingest E w op with
    | none => none
    | some w1 => ingest_all E w1 rest

/-- Whether an ingest call feeds a sample to the center tracker of `(lh, axis)`: a
generation-2 light event with an in-range sensor, or a generation-1 event, for that lighthouse
and axis. -/
def feeds_center (E : Env) (lh axis : Int) : Ingest → Bool
  | Ingest.imu _ => false
  | Ingest.gen2 ev =>
    decide (ev.common.hdr.pt = PoserType.POSERDATA_LIGHT_GEN2 ∧
      ev.common.sensor_id < E.SENSORS_PER_OBJECT ∧ ev.common.lh = lh ∧ ev.plane = axis)
  | Ingest.gen1 ev => decide (ev.common.lh = lh ∧ ev.acode % 2 = axis)

/-- The timecodes of the IMU samples in a sequence of ingest calls, in order. -/
def imu_timecodes : List Ingest → List Nat
  | [] => []
  | Ingest.imu imuData :: rest => imuData.hdr.timecode :: imu_timecodes rest
  | _ :: rest => imu_timecodes rest

/-! ## The vector helpers, for concrete runs -/

namespace FLT

/-- The integer square root, by Newton steps from a power of two above the root; 20 steps
reach it for `n < 2^16384`. -/
def isqrt (n : Nat) : Nat :=
  if n = 0 then 0
  else (List.range 20).foldl (fun x _ => min x ((x + n / x) / 2)) (1 <<< (ilog2 n / 2 + 1))

/-- The correctly rounded square root of IEEE-754. -/
def sqrt : FLT → FLT
  | nan => nan
  | inf s => if s then nan else inf false
  | fin s m e =>
    if m = 0 then fin s 0 0
    else if s then nan
    else
      let r := isqrt (m <<< (e + 1074 + 128))
      if r * r = m <<< (e + 1074 + 128) then round false r (1 <<< 64)
      else round false (2 * r + 1) (1 <<< 65)

end FLT

/-- Modelled from the spec: the norm of a 3-vector, `norm3d` of `linmath.h`, as the square root
of the sum of the squared components. -/
def linmath_norm3d (v : Int → FLT) : FLT :=
  FLT.sqrt (FLT.add (FLT.add (FLT.mul (v 0) (v 0)) (FLT.mul (v 1) (v 1))) (FLT.mul (v 2) (v 2)))

/-- Modelled from the spec: the Euclidean distance of two 3-vectors, `dist3d` of `linmath.h`,
as the norm of their difference. -/
def linmath_dist3d (a b : Int → FLT) : FLT :=
  linmath_norm3d (fun i => FLT.sub (a i) (b i))

/-- The instance `Env.reference` with the square root and the two vector helpers filled in;
`exp` stays a stand-in, which no concrete run below evaluates. -/
def Env.linmath : Env :=
  { Env.reference with
    sqrt := FLT.sqrt, norm3d := linmath_norm3d, dist3d := linmath_dist3d }

/-- An IMU sample, given by its timecode and the components of its accelerometer and gyroscope
vectors; the magnetometer vector is zero. -/
def imu_event (timecode : Nat) (ax ay az gx gy gz : FLT) : PoserDataIMU :=
  { hdr := { pt := PoserType.POSERDATA_OTHER, timecode := timecode },
    accel := fun i => if i = 0 then ax else if i = 1 then ay else if i = 2 then az else FLT.zero,
    gyro := fun i => if i = 0 then gx else if i = 1 then gy else if i = 2 then gz else FLT.zero,
    mag := fun _ => FLT.zero }

/-- The ledger of `scenario_first` with the IMU warm-up over: `last_light` is 1,000,000. -/
def scenario_warm : SurviveSensorActivations :=
  (List.replicate 30 (imu_event 1000 FLT.zero FLT.zero (FLT.lit 1 1) FLT.zero FLT.zero FLT.zero)
    ).foldl (SurviveSensorActivations_add_imu Env.linmath scenario_globals) scenario_first

/-- An IMU sample at timecode 500,000 with gyro vector `(1, 0, 0)`, of norm 1. -/
def moving_sample : PoserDataIMU :=
  imu_event 500000 FLT.zero FLT.zero (FLT.lit 1 1) (FLT.lit 1 1) FLT.zero FLT.zero

/-- An IMU sample at timecode 1,500,000 with gyro vector `(1, 0, 0)`, of norm 1. -/
def late_moving_sample : PoserDataIMU :=
  imu_event 1500000 FLT.zero FLT.zero (FLT.lit 1 1) (FLT.lit 1 1) FLT.zero FLT.zero


/-- The ledger of the end-to-end scenario after a further event on sensor 1 of the same
lighthouse and axis at timecode `2^32 + 1,000,003`: the reading of sensor 0 is then
`2^32 + 3` ticks old. -/
def scenario_stale : SurviveSensorActivations :=
  (SurviveSensorActivations_add_gen2 Env.reference scenario_globals scenario_first
    (gen2_event 1 0 0 4295967299 (FLT.lit 2 10))).2

/-- The fresh ledger after a generation-2 event for lighthouse 2 (sensor 0, axis 0, timecode
1,000,000, angle 0.2) and then a generation-1 event for lighthouse 0 (sensor 0, axis 0,
timecode 1,000,000, angle 0.2, pulse length 0.0001 s), which leaves the generation tag at 0. -/
def scenario_mixed : Option (Globals × SurviveSensorActivations) :=
  ingest_all Env.reference (scenario_globals, scenario_fresh)
    [Ingest.gen2 (gen2_event 0 2 0 1000000 (FLT.lit 2 10)),
     Ingest.gen1 (gen1_event 0 0 0 1000000 (FLT.lit 2 10) (FLT.lit 1 10000))]

/-- The fresh ledger after one generation-2 event on sensor 1 with the largest 64-bit
timecode, which becomes `last_light`. -/
def scenario_last_tick : SurviveSensorActivations :=
  (SurviveSensorActivations_add_gen2 Env.reference scenario_globals scenario_fresh
    (gen2_event 1 0 0 18446744073709551615 (FLT.lit 2 10))).2

/-! ## The snapshot difference in the words of the specification -/

/-- The slots `(sensor, lighthouse, axis)`, with the lighthouse among the generation-1 ones, in
which both snapshots have a non-zero pulse length, in the order sensor, lighthouse, axis. -/
def comparable_slots (E : Env) (a b : SurviveSensorActivations) : List (Nat × Nat × Nat) :=
  ((List.range E.SENSORS_PER_OBJECT.toNat).map (fun (i : Nat) =>
    ((List.range E.NUM_GEN1_LIGHTHOUSES.toNat).map (fun (lh : Nat) =>
      ((List.range 2).filter (fun (axis : Nat) =>
        decide (a.lengths i lh axis ≠ 0 ∧ b.lengths i lh axis ≠ 0))).map
        (fun (axis : Nat) => (i, lh, axis)))).flatten)).flatten

/-- The squared difference of the two snapshots' angles in one slot. -/
def squared_difference (a b : SurviveSensorActivations) (slot : Nat × Nat × Nat) : FLT :=
  FLT.mul (FLT.sub (a.angles slot.1 slot.2.1 slot.2.2) (b.angles slot.1 slot.2.1 slot.2.2))
    (FLT.sub (a.angles slot.1 slot.2.1 slot.2.2) (b.angles slot.1 slot.2.1 slot.2.2))

/-- The mean squared angle difference in the words of the specification: the sum of the squared
differences over the comparable slots, added up in slot order from `0.0`, divided by the
number of comparable slots. -/
def spec_difference (E : Env) (a b : SurviveSensorActivations) : FLT :=
  FLT.div (((comparable_slots E a b).map (squared_difference a b)).foldl FLT.add (FLT.ofInt 0))
    (FLT.ofInt (comparable_slots E a b).length)

/-- A ledger in generation-1 mode: the fresh ledger after one generation-1 event for sensor 0,
lighthouse 0, axis 0 at timecode 1,000,000 with the given angle and a pulse length of
0.0001 s; the call has a defined result. -/
def scenario_gen1 (angle : FLT) : SurviveSensorActivations :=
  match SurviveSensorActivations_add Env.reference scenario_globals scenario_fresh
      (gen1_event 0 0 0 1000000 angle (FLT.lit 1 10000)) with
  | some r => r.2.1
  | none => scenario_fresh

/-! ## The timecode reconciler -/

theorem hi_mask_eq (p : Nat) (hp : p < 2 ^ 64) :
    p &&& 0xFFFFFFFF00000000 = p / 2 ^ 32 * 2 ^ 32 := by
  apply Nat.eq_of_testBit_eq
  intro i
  have hM : (0xFFFFFFFF00000000 : Nat) = 2 ^ 32 * (2 ^ 32 - 1) := by norm_num
  rw [Nat.testBit_and, hM, Nat.mul_comm (p / 2 ^ 32), Nat.testBit_mul_pow_two,
    Nat.testBit_mul_pow_two, ← Nat.shiftRight_eq_div_pow, Nat.testBit_shiftRight]
  by_cases h : 32 ≤ i
  · simp only [h, decide_True, Bool.true_and]
    rw [Nat.add_sub_cancel' h]
    by_cases h2 : i < 64
    · have : (2 ^ 32 - 1 : Nat).testBit (i - 32) = true := by
        rw [Nat.testBit_two_pow_sub_one]
        simp; omega
      rw [this, Bool.and_true]
    · have : p.testBit i = false := by
        apply Nat.testBit_lt_two_pow
        calc p < 2 ^ 64 := hp
          _ ≤ 2 ^ i := Nat.pow_le_pow_right (by norm_num) (by omega)
      simp [this]
  · simp [h]

/-- The candidate `current | (prev & 0xFFFFFFFF00000000)` is the high half of `prev` joined
with `current`. -/
theorem candidate_eq (prev cur : Nat) (hp : prev < 2 ^ 64) (hc : cur < 2 ^ 32) :
    cur ||| (prev &&& 0xFFFFFFFF00000000) = prev / 2 ^ 32 * 2 ^ 32 + cur := by
  rw [hi_mask_eq prev hp, Nat.or_comm, Nat.mul_comm, Nat.mul_add_lt_is_or hc]

/-- The reconciler in arithmetic form. -/
theorem make_long_timecode_eq (prev cur : Nat) (hp : prev < 2 ^ 64) (hc : cur < 2 ^ 32) :
    make_long_timecode prev cur =
      (let rtn := prev / 2 ^ 32 * 2 ^ 32 + cur
       let rtn := if rtn < prev ∧ (rtn + 0x80000000) % 2 ^ 64 < prev
         then (rtn + 0x100000000) % 2 ^ 64 else rtn
       if rtn > prev ∧ (prev + 0x80000000) % 2 ^ 64 < rtn ∧ rtn > 0x100000000
         then rtn - 0x100000000 else rtn) := by
  unfold make_long_timecode
  rw [candidate_eq prev cur hp hc]

/-- One call recovers a true time `t` that lies less than `2^31` from `prev`, on either side. -/
theorem make_long_timecode_step (prev t : Nat) (hp : prev + 2 ^ 31 < 2 ^ 64) (ht : t < 2 ^ 64)
    (h1 : t < prev + 2 ^ 31) (h2 : prev < t + 2 ^ 31) :
    make_long_timecode prev (t % 2 ^ 32) = t := by
  rw [make_long_timecode_eq prev (t % 2 ^ 32) (by omega) (Nat.mod_lt _ (by norm_num))]
  norm_num at hp ht h1 h2 ⊢
  split_ifs <;> omega

/-- C1: for every 64-bit `prev` and 32-bit `cur`, `make_long_timecode prev cur` is a 64-bit value
whose low 32 bits are `cur`; so are the values the two wrappers for the light and the IMU clock
return. -/
theorem make_long_timecode_low_bits (prev cur : Nat) (hp : prev < 2 ^ 64) (hc : cur < 2 ^ 32) :
    make_long_timecode prev cur % 2 ^ 32 = cur ∧ make_long_timecode prev cur < 2 ^ 64 ∧
    (∀ self : SurviveSensorActivations, self.last_light = prev →
      SurviveSensorActivations_long_timecode_light self cur % 2 ^ 32 = cur) ∧
    (∀ self : SurviveSensorActivations, self.last_imu = prev →
      SurviveSensorActivations_long_timecode_imu self cur % 2 ^ 32 = cur) := by
  have key : make_long_timecode prev cur % 2 ^ 32 = cur ∧ make_long_timecode prev cur < 2 ^ 64 := by
    rw [make_long_timecode_eq prev cur hp hc]
    norm_num at hp hc ⊢
    constructor <;> split_ifs <;> omega
  refine ⟨key.1, key.2, ?_, ?_⟩
  · intro self h
    simp only [SurviveSensorActivations_long_timecode_light, h, key.1]
  · intro self h
    simp only [SurviveSensorActivations_long_timecode_imu, h, key.1]

theorem make_long_timecode_low_bits_witness :
    make_long_timecode 4294967306 4294967295 % 2 ^ 32 = 4294967295 ∧
    make_long_timecode 4294967306 4294967295 = 4294967295 :=
  ⟨(make_long_timecode_low_bits 4294967306 4294967295 (by norm_num) (by norm_num)).1, by decide⟩

/-- C2, as stated, fails: with `prev = 0` and `cur = 0xFFFFFFFF` the result is `0xFFFFFFFF`,
which is `2^32 - 1` away from `prev`. -/
theorem make_long_timecode_far_from_prev :
    make_long_timecode 0 4294967295 = 4294967295 ∧
    ¬ Nat.dist (make_long_timecode 0 4294967295) 0 ≤ 2 ^ 31 := by
  decide

/-- C2, amended: for `2^31 - 1 ≤ prev < 2^64 - 2^31` and every 32-bit `cur`, the result is the
candidate `cur | (prev & 0xFFFFFFFF00000000)`, or the candidate plus or minus `2^32`, and it lies
within `2^31` of `prev`. -/
theorem make_long_timecode_near_prev (prev cur : Nat) (hlo : 2 ^ 31 - 1 ≤ prev)
    (hhi : prev < 2 ^ 64 - 2 ^ 31) (hc : cur < 2 ^ 32) :
    Nat.dist (make_long_timecode prev cur) prev ≤ 2 ^ 31 ∧
    (make_long_timecode prev cur = cur ||| (prev &&& 0xFFFFFFFF00000000) ∨
     make_long_timecode prev cur = (cur ||| (prev &&& 0xFFFFFFFF00000000)) + 2 ^ 32 ∨
     make_long_timecode prev cur + 2 ^ 32 = cur ||| (prev &&& 0xFFFFFFFF00000000)) := by
  have hp : prev < 2 ^ 64 := by omega
  rw [make_long_timecode_eq prev cur hp hc, candidate_eq prev cur hp hc]
  unfold Nat.dist
  norm_num at hlo hhi hp hc ⊢
  constructor <;> split_ifs <;> omega

theorem make_long_timecode_near_prev_witness :
    Nat.dist (make_long_timecode 4294967296 4294967295) 4294967296 ≤ 2 ^ 31 :=
  (make_long_timecode_near_prev 4294967296 4294967295 (by norm_num) (by norm_num)
    (by norm_num)).1

/-- C3, as stated, fails: the increasing sequence `0 < 2^32` of true times, fed from
`prev = 0`, is reconstructed as `0` at its second member. -/
theorem feed_timecodes_loses_wrap :
    List.Chain (fun a b => a < b) 0 [4294967296] ∧
    feed_timecodes 0 ([4294967296].map (fun t => t % 2 ^ 32)) = [0] ∧
    feed_timecodes 0 ([4294967296].map (fun t => t % 2 ^ 32)) ≠ [4294967296] :=
  ⟨by simp, by decide, by decide⟩

/-- C3, amended: for an increasing sequence of true times below `2^64 - 2^31` in which each
member is less than `2^31` above the one before, feeding the low 32 bits one at a time, from
`prev = t0`, recovers every member exactly, however many wraparounds the sequence crosses. -/
theorem feed_timecodes_exact (t0 : Nat) (ts : List Nat)
    (hstep : List.Chain (fun a b => a < b ∧ b < a + 2 ^ 31) t0 ts)
    (hbound : ∀ t ∈ t0 :: ts, t < 2 ^ 64 - 2 ^ 31) :
    feed_timecodes t0 (ts.map (fun t => t % 2 ^ 32)) = ts := by
  induction ts generalizing t0 with
  | nil => rfl
  | cons t rest ih =>
    rw [List.chain_cons] at hstep
    have h0 := hbound t0 (List.mem_cons_self _ _)
    have h1 := hbound t (List.mem_cons_of_mem _ (List.mem_cons_self _ _))
    have hs : make_long_timecode t0 (t % 2 ^ 32) = t :=
      make_long_timecode_step t0 t (by omega) (by omega) hstep.1.2 (by omega)
    simp only [List.map_cons, feed_timecodes, hs]
    rw [ih t hstep.2 (fun x hx => hbound x (List.mem_cons_of_mem _ hx))]

theorem feed_timecodes_exact_witness :
    feed_timecodes 4294967286
      ([5368709110, 6442450934, 7516192758, 8589934582, 9663676406, 10737418230].map
        (fun t => t % 2 ^ 32))
      = [5368709110, 6442450934, 7516192758, 8589934582, 9663676406, 10737418230] ∧
    4294967286 < 2 ^ 32 ∧ 2 * 2 ^ 32 < 10737418230 :=
  ⟨feed_timecodes_exact 4294967286
      [5368709110, 6442450934, 7516192758, 8589934582, 9663676406, 10737418230]
      (by simp) (by simp), by norm_num, by norm_num⟩

/-! ## The freshness and coverage query -/

/-- The initializer of the default tolerance evaluates to `806600`. -/
theorem default_tolerance_eq : SurviveSensorActivations_default_tolerance = 806600 := by
  decide

/-- A loop whose body adds `w i` to a `uint32_t` counter adds the sum of the `w i`. -/
theorem foldl_counter {A ι : Type} (p : A → Option Nat) (f : A → ι → A) (w : ι → Nat)
    (hf : ∀ a i x, p a = some (x % 2 ^ 32) → p (f a i) = some ((x + w i) % 2 ^ 32))
    (l : List ι) (a : A) (x : Nat) (ha : p a = some (x % 2 ^ 32)) :
    p (l.foldl f a) = some ((x + (l.map w).sum) % 2 ^ 32) := by
  induction l generalizing a x with
  | nil => simpa using ha
  | cons i rest ih =>
    rw [List.foldl_cons, ih (f a i) (x + w i) (hf a i x ha), List.map_cons, List.sum_cons,
      Nat.add_assoc]

/-- The test the innermost loop makes for one reading. -/
theorem valid_counts_axis_meas (self : SurviveSensorActivations) (W : Nat) (lh : Int)
    (sensor : Nat) (acc : Counts × Bool × Bool) (axis x : Nat)
    (h : acc.1.meas_cnt = some (x % 2 ^ 32)) :
    (valid_counts_axis self W lh sensor acc axis).1.meas_cnt =
      some ((x + (if SurviveSensorActivations_time_since_last_reading self sensor lh axis
        % 2 ^ 32 < W then 1 else 0)) % 2 ^ 32) := by
  unfold valid_counts_axis
  by_cases hc : SurviveSensorActivations_time_since_last_reading self sensor lh axis % 2 ^ 32 < W
  · simp only [hc, if_true, h, Option.map_some', Nat.mod_add_mod]
  · simp only [hc, if_false, h, Nat.add_zero]

theorem valid_counts_sensor_meas (self : SurviveSensorActivations) (W : Nat) (lh : Int)
    (acc : Counts × Bool) (sensor x : Nat) (h : acc.1.meas_cnt = some (x % 2 ^ 32)) :
    (valid_counts_sensor self W lh acc sensor).1.meas_cnt =
      some ((x + ((List.range 2).map (fun axis : Nat =>
        if SurviveSensorActivations_time_since_last_reading self sensor lh axis % 2 ^ 32 < W
        then 1 else 0)).sum) % 2 ^ 32) := by
  unfold valid_counts_sensor
  exact foldl_counter (fun a : Counts × Bool × Bool => a.1.meas_cnt) _ _
    (fun a i y hy => valid_counts_axis_meas self W lh sensor a i y hy) _ _ x h

theorem valid_counts_lh_meas (self : SurviveSensorActivations) (so : SurviveObject)
    (ctx : SurviveContext) (W : Nat) (c : Counts) (lh x : Nat)
    (h : c.meas_cnt = some (x % 2 ^ 32)) :
    (valid_counts_lh self so ctx W c lh).meas_cnt =
      some ((x + (if (ctx.bsd lh).PositionSet then
        ((List.range so.sensor_ct.toNat).map (fun sensor =>
          ((List.range 2).map (fun axis : Nat =>
            if SurviveSensorActivations_time_since_last_reading self sensor lh axis % 2 ^ 32 < W
            then 1 else 0)).sum)).sum
        else 0)) % 2 ^ 32) := by
  unfold valid_counts_lh
  by_cases hp : (ctx.bsd lh).PositionSet = true
  · simp only [hp, not_true_eq_false, if_false, if_true]
    exact foldl_counter (fun a : Counts × Bool => a.1.meas_cnt) _ _
      (fun a i y hy => valid_counts_sensor_meas self W lh a i y hy) _ _ x h
  · rw [Bool.not_eq_true] at hp
    simp [hp, h]

/-- The measurement counter after the query: the count of the readings whose 32-bit age is
below the 32-bit window is added to it. -/
theorem valid_counts_meas (self : SurviveSensorActivations) (so : SurviveObject)
    (ctx : SurviveContext) (tolerance : Nat) (c : Counts) (m : Nat)
    (hso : self.so = some so) (hctx : so.ctx = some ctx) (hm : c.meas_cnt = some m)
    (hm32 : m < 2 ^ 32) :
    ∃ c1, SurviveSensorActivations_valid_counts self tolerance c = some c1 ∧
      c1.meas_cnt = some ((m + count_triples so ctx (fun lh sensor axis =>
        decide (SurviveSensorActivations_time_since_last_reading self sensor lh axis % 2 ^ 32
          < (if tolerance = 0 then SurviveSensorActivations_default_tolerance else tolerance)
            % 2 ^ 32))) % 2 ^ 32) := by
  unfold SurviveSensorActivations_valid_counts
  simp only [hso, hctx]
  refine ⟨_, rfl, ?_⟩
  have hm1 : c.meas_cnt = some (m % 2 ^ 32) := by rw [hm, Nat.mod_eq_of_lt hm32]
  rw [foldl_counter (fun a : Counts => a.meas_cnt) _ _
    (fun a i y hy => valid_counts_lh_meas self so ctx _ a i y hy) _ _ m hm1]
  simp only [count_triples, decide_eq_true_eq]

/-- The sentinel of `SurviveSensorActivations_last_reading` marks the unseen records. -/
theorem last_reading_eq (self : SurviveSensorActivations) (sensor : Nat) (lh axis : Int) :
    SurviveSensorActivations_last_reading self sensor lh axis =
      if record_unseen self sensor lh axis then UINT64_MAX
      else self.timecode sensor lh axis := by
  unfold SurviveSensorActivations_last_reading record_unseen
  by_cases h1 : self.lh_gen ≠ 1 ∧ lh < 2 ∧ self.lengths sensor lh axis = 0
  · rw [if_pos h1, decide_eq_true h1, Bool.true_or, if_pos rfl]
  · rw [if_neg h1, decide_eq_false h1, Bool.false_or]

/-- The 32-bit age test of the query, spelled out: for `last_light` below `UINT64_MAX` and a
window below `2^32` it holds exactly for the records that are not unseen, are not stamped after
`last_light`, and whose age has its low 32 bits below the window. -/
theorem age_test_eq_window_fresh (self : SurviveSensorActivations) (W lh sensor axis : Nat)
    (hll : self.last_light < UINT64_MAX) (hW : W < 2 ^ 32) :
    decide (SurviveSensorActivations_time_since_last_reading self sensor lh axis % 2 ^ 32 < W)
      = window_fresh self W lh sensor axis := by
  unfold SurviveSensorActivations_time_since_last_reading window_fresh
  rw [last_reading_eq]
  unfold UINT64_MAX at hll ⊢
  unfold UINT32_MAX
  norm_num at hW
  cases hu : record_unseen self sensor lh axis
  · by_cases h2 : self.timecode sensor lh axis ≤ self.last_light
    · have h3 : ¬ self.timecode sensor lh axis > self.last_light := by omega
      simp only [Bool.false_eq_true, if_false, h3, h2, Bool.not_false, decide_True,
        Bool.true_and]
    · have h3 : self.timecode sensor lh axis > self.last_light := by omega
      simp only [Bool.false_eq_true, if_false, h3, if_true, h2, Bool.not_false, decide_False,
        Bool.true_and, Bool.false_and, decide_eq_false_iff_not]
      omega
  · have h3 : 18446744073709551615 > self.last_light := hll
    simp only [if_true, h3, Bool.not_true, Bool.false_and, decide_eq_false_iff_not]
    omega

/-- C4, where the code departs from the claim.  In the ledger with sensor 0 stamped at
1,000,000 and sensor 1 at `2^32 + 1,000,003`, exactly one reading is not unseen and less than
5 ticks old, and `SurviveSensorActivations_is_reading_valid` refuses the reading of sensor 0 at
tolerance 5; yet the query with tolerance 5 adds 2 to `*meas_cnt`, the age `2^32 + 3` being
cut to its low 32 bits.  And after the first event alone, tolerance `2^32` has one reading of
age 0 within it, yet the query adds 0, the tolerance being cut to its low 32 bits. -/
theorem valid_counts_cuts_to_32_bits :
    (count_triples scenario_so scenario_ctx (spec_fresh scenario_stale (spec_tolerance 5)) = 1 ∧
     SurviveSensorActivations_time_since_last_reading scenario_stale 0 0 0 = 4294967299 ∧
     SurviveSensorActivations_is_reading_valid scenario_stale 5 0 0 0 = false ∧
     (SurviveSensorActivations_valid_counts scenario_stale 5 meas_only).map
       Counts.meas_cnt = some (some 2)) ∧
    (count_triples scenario_so scenario_ctx
       (spec_fresh scenario_first (spec_tolerance 4294967296)) = 1 ∧
     (SurviveSensorActivations_valid_counts scenario_first 4294967296 meas_only).map
       Counts.meas_cnt = some (some 0)) := by
  decide

/-- The count of the readings that pass the 32-bit age test is the count of the records that
are not unseen, not stamped after `last_light`, and young in their low 32 bits. -/
theorem count_age_eq_window (self : SurviveSensorActivations) (so : SurviveObject)
    (ctx : SurviveContext) (W : Nat) (hll : self.last_light < UINT64_MAX) (hW : W < 2 ^ 32) :
    count_triples so ctx (fun lh sensor axis =>
      decide (SurviveSensorActivations_time_since_last_reading self sensor lh axis % 2 ^ 32 < W))
      = count_triples so ctx (window_fresh self W) := by
  have hfun : (fun lh sensor axis : Nat =>
      decide (SurviveSensorActivations_time_since_last_reading self sensor lh axis % 2 ^ 32 < W))
      = window_fresh self W := by
    funext lh sensor axis
    exact age_test_eq_window_fresh self W lh sensor axis hll hW
  rw [hfun]

/-- The count of the triples that pass a test grows with the test. -/
theorem count_triples_mono (so : SurviveObject) (ctx : SurviveContext)
    (P Q : Nat → Nat → Nat → Bool) (h : ∀ lh sensor axis, P lh sensor axis = true →
      Q lh sensor axis = true) :
    count_triples so ctx P ≤ count_triples so ctx Q := by
  unfold count_triples
  apply List.sum_le_sum
  intro lh _
  split_ifs
  · apply List.sum_le_sum
    intro sensor _
    apply List.sum_le_sum
    intro axis _
    by_cases hp : P lh sensor axis = true
    · simp [hp, h lh sensor axis hp]
    · simp only [hp, if_false]; exact Nat.zero_le _
  · exact le_refl _

/-- The count of triples is at most the number of slots the loops visit. -/
theorem count_triples_le (so : SurviveObject) (ctx : SurviveContext)
    (P : Nat → Nat → Nat → Bool) :
    count_triples so ctx P ≤ ctx.activeLighthouses.toNat * (so.sensor_ct.toNat * 2) := by
  unfold count_triples
  have hax : ∀ lh sensor : Nat,
      ((List.range 2).map (fun axis : Nat => if P lh sensor axis then 1 else 0)).sum ≤ 2 := by
    intro lh sensor
    simp only [List.range_succ, List.range_zero, List.nil_append, List.cons_append,
      List.map_cons, List.map_nil, List.sum_cons, List.sum_nil]
    split_ifs <;> omega
  have hsen : ∀ lh : Nat,
      ((List.range so.sensor_ct.toNat).map (fun sensor : Nat =>
        ((List.range 2).map (fun axis : Nat => if P lh sensor axis then 1 else 0)).sum)).sum
        ≤ so.sensor_ct.toNat * 2 := by
    intro lh
    have := List.sum_le_card_nsmul ((List.range so.sensor_ct.toNat).map (fun sensor : Nat =>
        ((List.range 2).map (fun axis : Nat => if P lh sensor axis then 1 else 0)).sum)) 2
      (by
        intro x hx
        rw [List.mem_map] at hx
        obtain ⟨s, _, rfl⟩ := hx
        exact hax lh s)
    simpa using this
  have := List.sum_le_card_nsmul ((List.range ctx.activeLighthouses.toNat).map (fun lh : Nat =>
      if (ctx.bsd lh).PositionSet then
        ((List.range so.sensor_ct.toNat).map (fun sensor : Nat =>
          ((List.range 2).map (fun axis : Nat => if P lh sensor axis then 1 else 0)).sum)).sum
      else 0)) (so.sensor_ct.toNat * 2)
    (by
      intro x hx
      rw [List.mem_map] at hx
      obtain ⟨lh, _, rfl⟩ := hx
      split_ifs
      · exact hsen lh
      · exact Nat.zero_le _)
  simpa using this

/-- C5, as stated, fails twice over.  Tolerance `0` stands for the default window, so for the
ledger with two readings aged 5 and 0 ticks the count is 2 at tolerance `0` and 1 at
tolerance `1`.  And the window is the low 32 bits of the tolerance, so after the first event of
the scenario the count is 1 at tolerance `2^32 - 1` and 0 at tolerance `2^32`. -/
theorem valid_counts_not_monotone :
    ((SurviveSensorActivations_valid_counts scenario_two_sensors 0 meas_only).map
        Counts.meas_cnt = some (some 2) ∧
     (SurviveSensorActivations_valid_counts scenario_two_sensors 1 meas_only).map
        Counts.meas_cnt = some (some 1)) ∧
    ((SurviveSensorActivations_valid_counts scenario_first 4294967295 meas_only).map
        Counts.meas_cnt = some (some 1) ∧
     (SurviveSensorActivations_valid_counts scenario_first 4294967296 meas_only).map
        Counts.meas_cnt = some (some 0)) := by
  decide

/-- C5, amended: for a fixed ledger and context whose slots number fewer than `2^32`, and
tolerances `0 < t1 ≤ t2 < 2^32`, the measurement count the query reports (the counter starting
at `0`) with tolerance `t1` is at most the count it reports with tolerance `t2`. -/
theorem valid_counts_monotone (self : SurviveSensorActivations) (so : SurviveObject)
    (ctx : SurviveContext) (t1 t2 : Nat) (c : Counts)
    (hso : self.so = some so) (hctx : so.ctx = some ctx) (hm : c.meas_cnt = some 0)
    (hslots : ctx.activeLighthouses.toNat * (so.sensor_ct.toNat * 2) < 2 ^ 32)
    (h1 : 0 < t1) (h12 : t1 ≤ t2) (h2 : t2 < 2 ^ 32) :
    ∃ c1 c2 n1 n2, SurviveSensorActivations_valid_counts self t1 c = some c1 ∧
      SurviveSensorActivations_valid_counts self t2 c = some c2 ∧
      c1.meas_cnt = some n1 ∧ c2.meas_cnt = some n2 ∧ n1 ≤ n2 := by
  obtain ⟨c1, e1, m1⟩ := valid_counts_meas self so ctx t1 c 0 hso hctx hm (by norm_num)
  obtain ⟨c2, e2, m2⟩ := valid_counts_meas self so ctx t2 c 0 hso hctx hm (by norm_num)
  refine ⟨c1, c2, _, _, e1, e2, m1, m2, ?_⟩
  have ht1 : t1 ≠ 0 := by omega
  have ht2 : t2 ≠ 0 := by omega
  simp only [ht1, ht2, if_false, Nat.zero_add]
  rw [Nat.mod_eq_of_lt (lt_of_le_of_lt (count_triples_le so ctx _) hslots),
    Nat.mod_eq_of_lt (lt_of_le_of_lt (count_triples_le so ctx _) hslots)]
  apply count_triples_mono
  intro lh sensor axis h
  rw [decide_eq_true_eq] at h ⊢
  rw [Nat.mod_eq_of_lt (lt_of_le_of_lt h12 h2)] at h
  rw [Nat.mod_eq_of_lt h2]
  omega

theorem valid_counts_monotone_witness :
    ∃ c1 c2 n1 n2,
      SurviveSensorActivations_valid_counts scenario_two_sensors 3 meas_only = some c1 ∧
      SurviveSensorActivations_valid_counts scenario_two_sensors 2000000 meas_only = some c2 ∧
      c1.meas_cnt = some n1 ∧ c2.meas_cnt = some n2 ∧ n1 ≤ n2 :=
  valid_counts_monotone scenario_two_sensors scenario_so scenario_ctx 3 2000000 meas_only
    rfl rfl rfl (by decide) (by decide) (by decide) (by decide)

/-! ## The outlier filter and the generation-2 ingest -/

/-- The decision of the filter does not read the generation tag. -/
theorem check_outlier_rejects_lh_gen (E : Env) (G : Globals) (self : SurviveSensorActivations)
    (g sensor_id lh axis : Int) (timecode : Nat) (angle : FLT) :
    check_outlier_rejects E G { self with lh_gen := g } sensor_id lh axis timecode angle =
      check_outlier_rejects E G self sensor_id lh axis timecode angle := rfl

/-- The bootstrap rule: a tracker deviation that compares equal to `0` means accept. -/
theorem check_outlier_rejects_of_dev_zero (E : Env) (G : Globals)
    (self : SurviveSensorActivations) (sensor_id lh axis : Int) (timecode : Nat) (angle : FLT)
    (h : FLT.eq (self.angles_center_dev lh axis) (FLT.ofInt 0) = true) :
    check_outlier_rejects E G self sensor_id lh axis timecode angle = false := by
  unfold check_outlier_rejects
  simp only [h, if_true]

/-- The flag `SurviveSensorActivations_check_outlier` returns is the decision. -/
theorem check_outlier_fst (E : Env) (G : Globals) (self : SurviveSensorActivations)
    (sensor_id lh axis : Int) (timecode : Nat) (angle : FLT) :
    (SurviveSensorActivations_check_outlier E G self sensor_id lh axis timecode angle).1 =
      check_outlier_rejects E G self sensor_id lh axis timecode angle := by
  unfold SurviveSensorActivations_check_outlier
  cases check_outlier_rejects E G self sensor_id lh axis timecode angle <;> rfl

/-- The state `SurviveSensorActivations_check_outlier` returns is the center update, at rate
`.05` for a rejected and `.1` for an accepted sample. -/
theorem check_outlier_snd (E : Env) (G : Globals) (self : SurviveSensorActivations)
    (sensor_id lh axis : Int) (timecode : Nat) (angle : FLT) :
    (SurviveSensorActivations_check_outlier E G self sensor_id lh axis timecode angle).2 =
      SurviveSensorActivations_update_center self
        (if check_outlier_rejects E G self sensor_id lh axis timecode angle
          then FLT.lit 5 100 else FLT.lit 1 10)
        lh axis (self.angles sensor_id lh axis) angle := by
  unfold SurviveSensorActivations_check_outlier
  cases check_outlier_rejects E G self sensor_id lh axis timecode angle <;> rfl

/-- The center update writes the three tracker tables only. -/
theorem update_center_frame (self : SurviveSensorActivations) (alpha : FLT) (lh axis : Int)
    (oldval angle : FLT) :
    let r := SurviveSensorActivations_update_center self alpha lh axis oldval angle
    r.so = self.so ∧ r.lh_gen = self.lh_gen ∧ r.angles = self.angles ∧
    r.timecode = self.timecode ∧ r.lengths = self.lengths ∧ r.hits = self.hits ∧
    r.last_imu = self.last_imu ∧ r.last_light = self.last_light ∧
    r.last_light_change = self.last_light_change ∧ r.last_movement = self.last_movement ∧
    r.accel = self.accel ∧ r.gyro = self.gyro ∧ r.mag = self.mag ∧
    r.runtime_offset = self.runtime_offset ∧ r.imu_init_cnt = self.imu_init_cnt := by
  unfold SurviveSensorActivations_update_center
  dsimp only
  split_ifs <;> simp only [and_self]

/-- What an accepted generation-2 event leaves behind: the flag `true`, the event's angle and
timecode in its slot, `last_light` raised to the event's timecode, generation 2, and the
center update at rate `.1`. -/
theorem add_gen2_accept (E : Env) (G : Globals) (self : SurviveSensorActivations)
    (ev : PoserDataLightGen2) (hpt : ev.common.hdr.pt = PoserType.POSERDATA_LIGHT_GEN2)
    (hs : ev.common.sensor_id < E.SENSORS_PER_OBJECT)
    (hacc : check_outlier_rejects E G self ev.common.sensor_id ev.common.lh ev.plane
      ev.common.hdr.timecode ev.common.angle = false) :
    let r := SurviveSensorActivations_add_gen2 E G self ev
    let u := SurviveSensorActivations_update_center { self with lh_gen := 1 } (FLT.lit 1 10)
      ev.common.lh ev.plane (self.angles ev.common.sensor_id ev.common.lh ev.plane)
      ev.common.angle
    r.1 = true ∧
    r.2.angles = set3 self.angles ev.common.sensor_id ev.common.lh ev.plane ev.common.angle ∧
    r.2.timecode = set3 self.timecode ev.common.sensor_id ev.common.lh ev.plane
      ev.common.hdr.timecode ∧
    r.2.lengths = self.lengths ∧ r.2.hits = self.hits ∧
    r.2.last_light = (if ev.common.hdr.timecode > self.last_light then ev.common.hdr.timecode
      else self.last_light) ∧
    r.2.so = self.so ∧ r.2.lh_gen = 1 ∧
    r.2.angles_center_x = u.angles_center_x ∧ r.2.angles_center_dev = u.angles_center_dev ∧
    r.2.angles_center_cnt = u.angles_center_cnt := by
  intro r u
  have hf := update_center_frame { self with lh_gen := 1 } (FLT.lit 1 10) ev.common.lh ev.plane
    (self.angles ev.common.sensor_id ev.common.lh ev.plane) ev.common.angle
  simp only at hf
  obtain ⟨f1, f2, f3, f4, f5, f6, _, f8, _⟩ := hf
  cases hnan : (self.angles ev.common.sensor_id ev.common.lh ev.plane).isnan <;>
  cases hgt : FLT.gt (FLT.fabs (FLT.sub (self.angles ev.common.sensor_id ev.common.lh ev.plane)
        ev.common.angle)) G.moveThresholdAng <;>
  by_cases c3 : self.last_light < ev.common.hdr.timecode <;>
  simp [r, u, SurviveSensorActivations_add_gen2, update_last_light, hpt, not_le.mpr hs,
    check_outlier_fst, check_outlier_snd, check_outlier_rejects_lh_gen, hacc, f1, f2, f3, f4,
    f5, f6, f8, hnan, hgt, c3]

/-- What a rejected generation-2 event leaves behind: the flag `false`, and the center update
at rate `.05` of the ledger tagged generation 2. -/
theorem add_gen2_reject (E : Env) (G : Globals) (self : SurviveSensorActivations)
    (ev : PoserDataLightGen2) (hpt : ev.common.hdr.pt = PoserType.POSERDATA_LIGHT_GEN2)
    (hs : ev.common.sensor_id < E.SENSORS_PER_OBJECT)
    (hrej : check_outlier_rejects E G self ev.common.sensor_id ev.common.lh ev.plane
      ev.common.hdr.timecode ev.common.angle = true) :
    SurviveSensorActivations_add_gen2 E G self ev =
      (false, SurviveSensorActivations_update_center { self with lh_gen := 1 } (FLT.lit 5 100)
        ev.common.lh ev.plane (self.angles ev.common.sensor_id ev.common.lh ev.plane)
        ev.common.angle) := by
  unfold SurviveSensorActivations_add_gen2
  simp only [hpt, if_true, ge_iff_le, not_le.mpr hs, if_false, check_outlier_fst,
    check_outlier_snd, check_outlier_rejects_lh_gen, hrej, not_true_eq_false]

/-- In C, `0.0 == 0` holds. -/
theorem eq_zero_zero : FLT.eq FLT.zero (FLT.ofInt 0) = true := by decide

/-- The first sample of a tracker seeds it: mean the sample, deviation `0`, count one more. -/
theorem update_center_seed (self : SurviveSensorActivations) (alpha : FLT) (lh axis : Int)
    (oldval angle : FLT) (h : self.angles_center_cnt lh axis = 0) :
    let r := SurviveSensorActivations_update_center self alpha lh axis oldval angle
    r.angles_center_x lh axis = angle ∧ r.angles_center_dev lh axis = FLT.zero ∧
    r.angles_center_cnt lh axis = 1 := by
  unfold SurviveSensorActivations_update_center
  simp [h, set2]

/-- A sample of `0.0` at rate `.1` leaves a tracker with mean `0.0` and deviation `0.0` as it
is. -/
theorem update_center_zero (self : SurviveSensorActivations) (lh axis : Int) (oldval : FLT)
    (hx : self.angles_center_x lh axis = FLT.zero)
    (hd : self.angles_center_dev lh axis = FLT.zero) :
    let r := SurviveSensorActivations_update_center self (FLT.lit 1 10) lh axis oldval
      (FLT.lit 0 1)
    r.angles_center_x lh axis = FLT.zero ∧ r.angles_center_dev lh axis = FLT.zero := by
  have e1 : FLT.add (FLT.mul FLT.zero (FLT.sub (FLT.lit 1 1) (FLT.lit 1 10)))
      (FLT.mul (FLT.lit 1 10) (FLT.lit 0 1)) = FLT.zero := by decide
  have e2 : FLT.add (FLT.mul FLT.zero (FLT.sub (FLT.lit 1 1) (FLT.lit 1 10)))
      (FLT.mul (FLT.mul (FLT.lit 1 10)
        (FLT.sub (FLT.mul FLT.zero (FLT.sub (FLT.lit 1 1) (FLT.lit 1 10))) (FLT.lit 0 1)))
        (FLT.sub (FLT.mul FLT.zero (FLT.sub (FLT.lit 1 1) (FLT.lit 1 10))) (FLT.lit 0 1)))
      = FLT.zero := by decide
  have e3 : FLT.lit 0 1 = FLT.zero := by decide
  unfold SurviveSensorActivations_update_center
  by_cases h : self.angles_center_cnt lh axis = 0
  · simp [h, set2, e3]
  · simp [h, set2, hx, hd, e1, e2]

/-- The ledger the constructor leaves: all trackers empty, all records at the unseen baseline
within the array bounds, the back-reference set. -/
theorem ctor_state (E : Env) (cfg : Config) (G : Globals) (so : Option SurviveObject)
    (mem : SurviveSensorActivations) :
    let s := (SurviveSensorActivations_ctor E cfg G so mem).2
    s.so = so ∧ s.angles_center_dev = (fun _ _ => FLT.zero) ∧
    s.angles_center_cnt = (fun _ _ => 0) ∧ s.timecode = (fun _ _ _ => 0) ∧
    s.last_light = 0 ∧
    s.angles = (fun i j h =>
      if 0 ≤ i ∧ i < E.SENSORS_PER_OBJECT ∧ 0 ≤ j ∧ j < E.NUM_GEN2_LIGHTHOUSES ∧ 0 ≤ h ∧ h < 2
      then FLT.nan else FLT.zero) :=
  ⟨rfl, rfl, rfl, rfl, rfl, rfl⟩

/-- A sum over `0, ..., n-1` whose terms vanish past the first is its first term. -/
theorem sum_range_first (f : Nat → Nat) (n : Nat) (hn : 0 < n)
    (h : ∀ i, 0 < i → i < n → f i = 0) : ((List.range n).map f).sum = f 0 := by
  induction n with
  | zero => omega
  | succ k ih =>
    rw [List.range_succ, List.map_append, List.sum_append]
    by_cases hk : k = 0
    · subst hk; simp
    · rw [ih (by omega) (fun i h1 h2 => h i h1 (by omega))]
      simp [h k (by omega) (by omega)]

/-- A sum over `0, ..., n-1` whose terms all vanish is `0`. -/
theorem sum_range_zero (f : Nat → Nat) (n : Nat) (h : ∀ i, i < n → f i = 0) :
    ((List.range n).map f).sum = 0 := by
  apply List.sum_eq_zero
  intro x hx
  rw [List.mem_map] at hx
  obtain ⟨i, hi, rfl⟩ := hx
  exact h i (List.mem_range.mp hi)

/-- When, among the slots the loops visit, the test holds for `(0, 0, 0)` alone, and
lighthouse 0 is active and positioned and sensor 0 exists, the count is 1. -/
theorem count_triples_single (so : SurviveObject) (ctx : SurviveContext)
    (P : Nat → Nat → Nat → Bool) (hL : 1 ≤ ctx.activeLighthouses) (hS : 1 ≤ so.sensor_ct)
    (hpos : (ctx.bsd 0).PositionSet = true)
    (hP : ∀ lh sensor axis : Nat, (lh : Int) < ctx.activeLighthouses →
      (sensor : Int) < so.sensor_ct → axis < 2 →
      P lh sensor axis = decide (lh = 0 ∧ sensor = 0 ∧ axis = 0)) :
    count_triples so ctx P = 1 := by
  unfold count_triples
  have hax : ∀ lh sensor : Nat, (lh : Int) < ctx.activeLighthouses →
      (sensor : Int) < so.sensor_ct →
      ((List.range 2).map (fun axis : Nat => if P lh sensor axis then 1 else 0)).sum =
        if lh = 0 ∧ sensor = 0 then 1 else 0 := by
    intro lh sensor h1 h2
    simp only [List.range_succ, List.range_zero, List.nil_append, List.cons_append,
      List.map_cons, List.map_nil, List.sum_cons, List.sum_nil]
    rw [hP lh sensor 0 h1 h2 (by norm_num), hP lh sensor 1 h1 h2 (by norm_num)]
    by_cases h : lh = 0 ∧ sensor = 0
    · simp [h]
    · have h3 : ¬ (lh = 0 ∧ sensor = 0 ∧ (0 : Nat) = 0) := fun hh => h ⟨hh.1, hh.2.1⟩
      have h4 : ¬ (lh = 0 ∧ sensor = 0 ∧ (1 : Nat) = 0) := fun hh => h ⟨hh.1, hh.2.1⟩
      simp [h, h3, h4]
  have hsen : ∀ lh : Nat, (lh : Int) < ctx.activeLighthouses →
      ((List.range so.sensor_ct.toNat).map (fun sensor : Nat =>
        ((List.range 2).map (fun axis : Nat => if P lh sensor axis then 1 else 0)).sum)).sum =
        if lh = 0 then 1 else 0 := by
    intro lh h1
    by_cases h : lh = 0
    · rw [sum_range_first _ _ (by omega), hax lh 0 h1 (by omega)]
      · simp [h]
      · intro i hi1 hi2
        rw [hax lh i h1 (by omega)]
        have : ¬ (lh = 0 ∧ i = 0) := fun hh => by omega
        simp [this]
    · rw [sum_range_zero]
      · simp [h]
      · intro i hi
        rw [hax lh i h1 (by omega)]
        have : ¬ (lh = 0 ∧ i = 0) := fun hh => h hh.1
        simp [this]
  rw [sum_range_first _ _ (by omega)]
  · have h0 := hsen 0 (by omega)
    simp only [Nat.cast_zero, hpos, if_true] at h0 ⊢
    rw [h0]
  · intro i hi1 hi2
    split_ifs
    · rw [hsen i (by omega)]
      simp; omega
    · rfl

/-- C6: on a ledger freshly constructed with the default thresholds for an object with at least
one sensor, whose context has lighthouse 0 active and positioned (the counts within the array
bounds), the generation-2 event (sensor 0, lighthouse 0, axis 0, timecode 1,000,000, angle 0.2)
is accepted, and the coverage query with tolerance 2,000,000 and `*meas_cnt` initially 0
reports a measurement count of 1. -/
theorem first_event_is_counted (E : Env) (G0 : Globals) (mem : SurviveSensorActivations)
    (so : SurviveObject) (ctx : SurviveContext) (c : Counts) (hctx : so.ctx = some ctx)
    (hS : 1 ≤ so.sensor_ct) (hSb : so.sensor_ct ≤ E.SENSORS_PER_OBJECT)
    (hL : 1 ≤ ctx.activeLighthouses) (hLb : ctx.activeLighthouses ≤ E.NUM_GEN2_LIGHTHOUSES)
    (hpos : (ctx.bsd 0).PositionSet = true) (hm : c.meas_cnt = some 0) :
    (SurviveSensorActivations_add_gen2 E
      (SurviveSensorActivations_ctor E Config.defaults G0 (some so) mem).1
      (SurviveSensorActivations_ctor E Config.defaults G0 (some so) mem).2
      (gen2_event 0 0 0 1000000 (FLT.lit 2 10))).1 = true ∧
    ∃ c1, SurviveSensorActivations_valid_counts
      (SurviveSensorActivations_add_gen2 E
        (SurviveSensorActivations_ctor E Config.defaults G0 (some so) mem).1
        (SurviveSensorActivations_ctor E Config.defaults G0 (some so) mem).2
        (gen2_event 0 0 0 1000000 (FLT.lit 2 10))).2 2000000 c = some c1 ∧
      c1.meas_cnt = some 1 := by
  obtain ⟨k1, k2, k3, k4, k5, k6⟩ := ctor_state E Config.defaults G0 (some so) mem
  generalize (SurviveSensorActivations_ctor E Config.defaults G0 (some so) mem).1 = G at *
  generalize (SurviveSensorActivations_ctor E Config.defaults G0 (some so) mem).2 = s at *
  have hacc : check_outlier_rejects E G s 0 0 0 1000000 (FLT.lit 2 10) = false :=
    check_outlier_rejects_of_dev_zero E G s 0 0 0 1000000 (FLT.lit 2 10)
      (by rw [k2]; exact eq_zero_zero)
  obtain ⟨a1, a2, a3, _, _, a6, a7, a8, _⟩ :=
    add_gen2_accept E G s (gen2_event 0 0 0 1000000 (FLT.lit 2 10)) rfl
      (show (0 : Int) < E.SENSORS_PER_OBJECT by omega) hacc
  generalize SurviveSensorActivations_add_gen2 E G s (gen2_event 0 0 0 1000000 (FLT.lit 2 10))
    = r at *
  simp only [gen2_event, k5] at a2 a3 a6
  refine ⟨a1, ?_⟩
  have hll : r.2.last_light < UINT64_MAX := by rw [a6]; decide
  obtain ⟨c1, e1, e2⟩ := valid_counts_meas r.2 so ctx 2000000 c 0
    (by rw [a7, k1]) hctx hm (by norm_num)
  refine ⟨c1, e1, ?_⟩
  rw [if_neg (by norm_num : ¬ (2000000 : Nat) = 0),
    count_age_eq_window r.2 so ctx _ hll (Nat.mod_lt _ (by norm_num))] at e2
  suffices hcount : count_triples so ctx (window_fresh r.2 (2000000 % 2 ^ 32)) = 1 by
    rw [e2, hcount]; rfl
  apply count_triples_single so ctx _ hL hS hpos
  intro lh sensor axis h1 h2 h3
  have hnan : (FLT.lit 2 10).isnan = false := by decide
  unfold window_fresh record_unseen
  rw [a8, a2, a3, a6, k4, k6]
  by_cases h : lh = 0 ∧ sensor = 0 ∧ axis = 0
  · obtain ⟨rfl, rfl, rfl⟩ := h
    simp [set3, hnan]
  · have h' : ¬ ((sensor : Int) = 0 ∧ (lh : Int) = 0 ∧ (axis : Int) = 0) := by
      intro hh; apply h; omega
    have hin : (0 : Int) ≤ sensor ∧ (sensor : Int) < E.SENSORS_PER_OBJECT ∧ (0 : Int) ≤ lh ∧
        (lh : Int) < E.NUM_GEN2_LIGHTHOUSES ∧ (0 : Int) ≤ axis ∧ (axis : Int) < 2 := by
      omega
    have h2' : ¬ (sensor = 0 ∧ lh = 0 ∧ axis = 0) := by
      intro hh; apply h; omega
    simp [set3, h, h', h2', hin, FLT.isnan]

theorem first_event_is_counted_witness :
    scenario_first = (SurviveSensorActivations_add_gen2 Env.reference scenario_globals
      scenario_fresh (gen2_event 0 0 0 1000000 (FLT.lit 2 10))).2 ∧
    ((SurviveSensorActivations_add_gen2 Env.reference scenario_globals scenario_fresh
      (gen2_event 0 0 0 1000000 (FLT.lit 2 10))).1 = true ∧
    ∃ c1, SurviveSensorActivations_valid_counts scenario_first 2000000 meas_only = some c1 ∧
      c1.meas_cnt = some 1) :=
  ⟨rfl, first_event_is_counted Env.reference Globals.initial blank_memory scenario_so
    scenario_ctx meas_only rfl (by decide) (by decide) (by decide) (by decide) rfl rfl⟩

/-- C7, as stated, fails: in the end-to-end scenario the second event (timecode 1,500,000,
angle 5.2) is accepted, and the slot then holds 5.2, not 0.2. -/
theorem second_event_not_rejected :
    (SurviveSensorActivations_add_gen2 Env.reference scenario_globals scenario_fresh
      (gen2_event 0 0 0 1000000 (FLT.lit 2 10))).1 = true ∧
    scenario_first.angles 0 0 0 = FLT.lit 2 10 ∧
    (SurviveSensorActivations_add_gen2 Env.reference scenario_globals scenario_first
      (gen2_event 0 0 0 1500000 (FLT.lit 52 10))).1 = true ∧
    (SurviveSensorActivations_add_gen2 Env.reference scenario_globals scenario_first
      (gen2_event 0 0 0 1500000 (FLT.lit 52 10))).2.angles 0 0 0 = FLT.lit 52 10 ∧
    FLT.lit 52 10 ≠ FLT.lit 2 10 := by
  decide

/-- C7, amended: on a fresh ledger with default thresholds, after the accepted generation-2
event (sensor 0, lighthouse 0, axis 0, timecode 1,000,000, angle 0.2), the second event for
the same slot at timecode 1,500,000 with angle 5.2 is accepted as well, the tracker's
deviation being still 0 after a single sample: `SurviveSensorActivations_add_gen2` returns
true and the slot holds angle 5.2 and timecode 1,500,000. -/
theorem second_event_is_accepted (E : Env) (G0 : Globals) (mem : SurviveSensorActivations)
    (so : SurviveObject) (hS : 0 < E.SENSORS_PER_OBJECT) :
    (SurviveSensorActivations_add_gen2 E
      (SurviveSensorActivations_ctor E Config.defaults G0 (some so) mem).1
      (SurviveSensorActivations_ctor E Config.defaults G0 (some so) mem).2
      (gen2_event 0 0 0 1000000 (FLT.lit 2 10))).1 = true ∧
    (SurviveSensorActivations_add_gen2 E
      (SurviveSensorActivations_ctor E Config.defaults G0 (some so) mem).1
      (SurviveSensorActivations_add_gen2 E
        (SurviveSensorActivations_ctor E Config.defaults G0 (some so) mem).1
        (SurviveSensorActivations_ctor E Config.defaults G0 (some so) mem).2
        (gen2_event 0 0 0 1000000 (FLT.lit 2 10))).2
      (gen2_event 0 0 0 1500000 (FLT.lit 52 10))).1 = true ∧
    (SurviveSensorActivations_add_gen2 E
      (SurviveSensorActivations_ctor E Config.defaults G0 (some so) mem).1
      (SurviveSensorActivations_add_gen2 E
        (SurviveSensorActivations_ctor E Config.defaults G0 (some so) mem).1
        (SurviveSensorActivations_ctor E Config.defaults G0 (some so) mem).2
        (gen2_event 0 0 0 1000000 (FLT.lit 2 10))).2
      (gen2_event 0 0 0 1500000 (FLT.lit 52 10))).2.angles 0 0 0 = FLT.lit 52 10 ∧
    (SurviveSensorActivations_add_gen2 E
      (SurviveSensorActivations_ctor E Config.defaults G0 (some so) mem).1
      (SurviveSensorActivations_add_gen2 E
        (SurviveSensorActivations_ctor E Config.defaults G0 (some so) mem).1
        (SurviveSensorActivations_ctor E Config.defaults G0 (some so) mem).2
        (gen2_event 0 0 0 1000000 (FLT.lit 2 10))).2
      (gen2_event 0 0 0 1500000 (FLT.lit 52 10))).2.timecode 0 0 0 = 1500000 := by
  obtain ⟨_, k2, k3, _⟩ := ctor_state E Config.defaults G0 (some so) mem
  generalize (SurviveSensorActivations_ctor E Config.defaults G0 (some so) mem).1 = G at *
  generalize (SurviveSensorActivations_ctor E Config.defaults G0 (some so) mem).2 = s at *
  have hacc : check_outlier_rejects E G s 0 0 0 1000000 (FLT.lit 2 10) = false :=
    check_outlier_rejects_of_dev_zero E G s 0 0 0 1000000 (FLT.lit 2 10)
      (by rw [k2]; exact eq_zero_zero)
  obtain ⟨a1, _, _, _, _, _, _, _, _, a10, _⟩ :=
    add_gen2_accept E G s (gen2_event 0 0 0 1000000 (FLT.lit 2 10)) rfl hS hacc
  have hseed := (update_center_seed { s with lh_gen := 1 } (FLT.lit 1 10) 0 0 (s.angles 0 0 0)
    (FLT.lit 2 10) (by show s.angles_center_cnt 0 0 = 0; rw [k3])).2.1
  generalize SurviveSensorActivations_add_gen2 E G s (gen2_event 0 0 0 1000000 (FLT.lit 2 10))
    = r at *
  have hdev : r.2.angles_center_dev 0 0 = FLT.zero := by rw [a10]; exact hseed
  have hacc2 : check_outlier_rejects E G r.2 0 0 0 1500000 (FLT.lit 52 10) = false :=
    check_outlier_rejects_of_dev_zero E G r.2 0 0 0 1500000 (FLT.lit 52 10)
      (by rw [hdev]; exact eq_zero_zero)
  obtain ⟨b1, b2, b3, _⟩ :=
    add_gen2_accept E G r.2 (gen2_event 0 0 0 1500000 (FLT.lit 52 10)) rfl hS hacc2
  refine ⟨a1, b1, ?_, ?_⟩
  · rw [b2]; simp [set3, gen2_event]
  · rw [b3]; simp [set3, gen2_event]

theorem second_event_is_accepted_witness :
    (SurviveSensorActivations_add_gen2 Env.reference scenario_globals scenario_first
      (gen2_event 0 0 0 1500000 (FLT.lit 52 10))).2.angles 0 0 0 = FLT.lit 52 10 :=
  (second_event_is_accepted Env.reference Globals.initial blank_memory scenario_so
    (by decide)).2.2.1

/-- C8: in a ledger just reset or just constructed, every first generation-2 event, whatever
its lighthouse, axis, in-range sensor, timecode and angle, is accepted: the filter reports
accept, `SurviveSensorActivations_add_gen2` returns true, and the slot holds the event's angle
and timecode. -/
theorem bootstrap_accepts (E : Env) (G G0 : Globals) (cfg : Config) (so : Option SurviveObject)
    (mem s : SurviveSensorActivations) (ev : PoserDataLightGen2)
    (hstate : s = SurviveSensorActivations_reset E mem ∨
      s = (SurviveSensorActivations_ctor E cfg G0 so mem).2)
    (hpt : ev.common.hdr.pt = PoserType.POSERDATA_LIGHT_GEN2)
    (hs0 : 0 ≤ ev.common.sensor_id) (hs1 : ev.common.sensor_id < E.SENSORS_PER_OBJECT)
    (hl0 : 0 ≤ ev.common.lh) (hl1 : ev.common.lh < E.NUM_GEN2_LIGHTHOUSES)
    (ha0 : 0 ≤ ev.plane) (ha1 : ev.plane < 2) :
    (SurviveSensorActivations_check_outlier E G s ev.common.sensor_id ev.common.lh ev.plane
      ev.common.hdr.timecode ev.common.angle).1 = false ∧
    (SurviveSensorActivations_add_gen2 E G s ev).1 = true ∧
    (SurviveSensorActivations_add_gen2 E G s ev).2.angles ev.common.sensor_id ev.common.lh
      ev.plane = ev.common.angle ∧
    (SurviveSensorActivations_add_gen2 E G s ev).2.timecode ev.common.sensor_id ev.common.lh
      ev.plane = ev.common.hdr.timecode := by
  have hdev : s.angles_center_dev ev.common.lh ev.plane = FLT.zero := by
    rcases hstate with h | h <;> rw [h] <;> rfl
  have hacc : check_outlier_rejects E G s ev.common.sensor_id ev.common.lh ev.plane
      ev.common.hdr.timecode ev.common.angle = false :=
    check_outlier_rejects_of_dev_zero E G s _ _ _ _ _ (by rw [hdev]; exact eq_zero_zero)
  obtain ⟨b1, b2, b3, _⟩ := add_gen2_accept E G s ev hpt hs1 hacc
  refine ⟨by rw [check_outlier_fst, hacc], b1, ?_, ?_⟩
  · rw [b2]; simp [set3]
  · rw [b3]; simp [set3]

theorem bootstrap_accepts_witness :
    (SurviveSensorActivations_add_gen2 Env.reference scenario_globals scenario_fresh
      (gen2_event 31 15 1 77 (FLT.inf true))).1 = true ∧
    (SurviveSensorActivations_add_gen2 Env.reference scenario_globals scenario_fresh
      (gen2_event 31 15 1 77 (FLT.inf true))).2.angles 31 15 1 = FLT.inf true :=
  ⟨(bootstrap_accepts Env.reference scenario_globals Globals.initial Config.defaults
      (some scenario_so) blank_memory scenario_fresh (gen2_event 31 15 1 77 (FLT.inf true))
      (Or.inr rfl) rfl (by decide) (by decide) (by decide) (by decide) (by decide)
      (by decide)).2.1,
   (bootstrap_accepts Env.reference scenario_globals Globals.initial Config.defaults
      (some scenario_so) blank_memory scenario_fresh (gen2_event 31 15 1 77 (FLT.inf true))
      (Or.inr rfl) rfl (by decide) (by decide) (by decide) (by decide) (by decide)
      (by decide)).2.2.1⟩

/-- C9, as stated, fails: after a baseline of one event with angle 0.0, an event for the same
slot with angle 100.0 and the stored timecode (zero elapsed time) is accepted, and the slot
then holds 100.0. -/
theorem zero_baseline_accepts_jump :
    scenario_zero_baseline.angles 0 0 0 = FLT.lit 0 1 ∧
    scenario_zero_baseline.timecode 0 0 0 = 1000000 ∧
    (SurviveSensorActivations_add_gen2 Env.reference scenario_globals scenario_zero_baseline
      (gen2_event 0 0 0 1000000 (FLT.lit 100 1))).1 = true ∧
    (SurviveSensorActivations_add_gen2 Env.reference scenario_globals scenario_zero_baseline
      (gen2_event 0 0 0 1000000 (FLT.lit 100 1))).2.angles 0 0 0 = FLT.lit 100 1 ∧
    FLT.lit 100 1 ≠ FLT.lit 0 1 := by
  decide

/-- Events with angle 0.0 for one lighthouse and axis keep a tracker that has deviation `0`,
and is empty or has mean `0.0`, in that condition. -/
theorem feed_zero_keeps_dev_zero (E : Env) (G : Globals) (sensor_id lh axis : Int)
    (hs : sensor_id < E.SENSORS_PER_OBJECT) (tcs : List Nat) (s : SurviveSensorActivations)
    (hd : s.angles_center_dev lh axis = FLT.zero)
    (hx : s.angles_center_cnt lh axis = 0 ∨ s.angles_center_x lh axis = FLT.zero) :
    (feed_gen2 E G s (tcs.map (fun t => gen2_event sensor_id lh axis t (FLT.lit 0 1)))
      ).angles_center_dev lh axis = FLT.zero := by
  induction tcs generalizing s with
  | nil => exact hd
  | cons t rest ih =>
    have hacc : check_outlier_rejects E G s sensor_id lh axis t (FLT.lit 0 1) = false :=
      check_outlier_rejects_of_dev_zero E G s _ _ _ _ _ (by rw [hd]; exact eq_zero_zero)
    obtain ⟨_, _, _, _, _, _, _, _, a9, a10, _⟩ :=
      add_gen2_accept E G s (gen2_event sensor_id lh axis t (FLT.lit 0 1)) rfl hs hacc
    have hu : (SurviveSensorActivations_update_center { s with lh_gen := 1 } (FLT.lit 1 10)
        lh axis (s.angles sensor_id lh axis) (FLT.lit 0 1)).angles_center_x lh axis = FLT.zero ∧
      (SurviveSensorActivations_update_center { s with lh_gen := 1 } (FLT.lit 1 10)
        lh axis (s.angles sensor_id lh axis) (FLT.lit 0 1)).angles_center_dev lh axis
          = FLT.zero := by
      rcases hx with h0 | h0
      · have := update_center_seed { s with lh_gen := 1 } (FLT.lit 1 10) lh axis
          (s.angles sensor_id lh axis) (FLT.lit 0 1) h0
        exact ⟨by rw [this.1]; decide, this.2.1⟩
      · exact update_center_zero { s with lh_gen := 1 } lh axis (s.angles sensor_id lh axis)
          h0 hd
    simp only [List.map_cons, feed_gen2, List.foldl_cons]
    exact ih _ (by rw [a10]; exact hu.2) (Or.inr (by rw [a9]; exact hu.1))

/-- C9, amended: starting from a fresh ledger with default thresholds, after any number of
generation-2 events with angle 0.0 for one slot, the tracker's deviation is still exactly 0,
so a further event for that slot with angle 100.0 is accepted by the bootstrap rule whatever
its timecode, zero elapsed time included: `SurviveSensorActivations_add_gen2` returns true and
the slot holds 100.0. -/
theorem zero_baseline_never_rejects (E : Env) (G0 : Globals) (mem : SurviveSensorActivations)
    (so : SurviveObject) (sensor_id lh axis : Int) (tcs : List Nat) (tc : Nat)
    (hn : 1 ≤ tcs.length) (hs0 : 0 ≤ sensor_id) (hs1 : sensor_id < E.SENSORS_PER_OBJECT) :
    (SurviveSensorActivations_add_gen2 E
      (SurviveSensorActivations_ctor E Config.defaults G0 (some so) mem).1
      (feed_gen2 E (SurviveSensorActivations_ctor E Config.defaults G0 (some so) mem).1
        (SurviveSensorActivations_ctor E Config.defaults G0 (some so) mem).2
        (tcs.map (fun t => gen2_event sensor_id lh axis t (FLT.lit 0 1))))
      (gen2_event sensor_id lh axis tc (FLT.lit 100 1))).1 = true ∧
    (SurviveSensorActivations_add_gen2 E
      (SurviveSensorActivations_ctor E Config.defaults G0 (some so) mem).1
      (feed_gen2 E (SurviveSensorActivations_ctor E Config.defaults G0 (some so) mem).1
        (SurviveSensorActivations_ctor E Config.defaults G0 (some so) mem).2
        (tcs.map (fun t => gen2_event sensor_id lh axis t (FLT.lit 0 1))))
      (gen2_event sensor_id lh axis tc (FLT.lit 100 1))).2.angles sensor_id lh axis
        = FLT.lit 100 1 := by
  obtain ⟨_, k2, k3, _⟩ := ctor_state E Config.defaults G0 (some so) mem
  generalize (SurviveSensorActivations_ctor E Config.defaults G0 (some so) mem).1 = G at *
  generalize (SurviveSensorActivations_ctor E Config.defaults G0 (some so) mem).2 = s at *
  have hdev := feed_zero_keeps_dev_zero E G sensor_id lh axis hs1 tcs s (by rw [k2])
    (Or.inl (by rw [k3]))
  generalize feed_gen2 E G s (tcs.map (fun t => gen2_event sensor_id lh axis t (FLT.lit 0 1)))
    = s1 at *
  have hacc : check_outlier_rejects E G s1 sensor_id lh axis tc (FLT.lit 100 1) = false :=
    check_outlier_rejects_of_dev_zero E G s1 _ _ _ _ _ (by rw [hdev]; exact eq_zero_zero)
  obtain ⟨b1, b2, _⟩ :=
    add_gen2_accept E G s1 (gen2_event sensor_id lh axis tc (FLT.lit 100 1)) rfl hs1 hacc
  refine ⟨b1, ?_⟩
  rw [b2]; simp [set3, gen2_event]

theorem zero_baseline_never_rejects_witness :
    (SurviveSensorActivations_add_gen2 Env.reference scenario_globals
      (feed_gen2 Env.reference scenario_globals scenario_fresh
        ([1000000, 1800000, 2600000].map (fun t => gen2_event 0 0 0 t (FLT.lit 0 1))))
      (gen2_event 0 0 0 2600000 (FLT.lit 100 1))).1 = true :=
  (zero_baseline_never_rejects Env.reference Globals.initial blank_memory scenario_so 0 0 0
    [1000000, 1800000, 2600000] 2600000 (by decide) (by decide) (by decide)).1

/-! ## Rejected samples -/

/-- What a rejected generation-1 event leaves behind: the flag `false`, the file-scope variables
as they were, and the center update at rate `.05` of the ledger tagged generation 1. -/
theorem add_reject (E : Env) (G : Globals) (self : SurviveSensorActivations)
    (ev : PoserDataLightGen1)
    (hrej : check_outlier_rejects E G self ev.common.sensor_id ev.common.lh (ev.acode % 2)
      ev.common.hdr.timecode ev.common.angle = true) :
    SurviveSensorActivations_add E G self ev =
      some (false, SurviveSensorActivations_update_center { self with lh_gen := 0 }
        (FLT.lit 5 100) ev.common.lh (ev.acode % 2)
        (self.angles ev.common.sensor_id ev.common.lh (ev.acode % 2)) ev.common.angle, G) := by
  unfold SurviveSensorActivations_add
  simp only [check_outlier_fst, check_outlier_snd, check_outlier_rejects_lh_gen, hrej, if_true]

/-- C10: for every state and every light event the outlier filter rejects, the ingest
(`SurviveSensorActivations_add_gen2` for a generation-2 event with an in-range sensor,
`SurviveSensorActivations_add` for a generation-1 event) returns false and leaves the angle,
timecode, length and hit count of every slot as they were. -/
theorem rejected_sample_keeps_records (E : Env) (G : Globals)
    (self : SurviveSensorActivations) :
    (∀ ev : PoserDataLightGen2, ev.common.hdr.pt = PoserType.POSERDATA_LIGHT_GEN2 →
      ev.common.sensor_id < E.SENSORS_PER_OBJECT →
      (SurviveSensorActivations_check_outlier E G self ev.common.sensor_id ev.common.lh ev.plane
        ev.common.hdr.timecode ev.common.angle).1 = true →
      (SurviveSensorActivations_add_gen2 E G self ev).1 = false ∧
      (SurviveSensorActivations_add_gen2 E G self ev).2.angles = self.angles ∧
      (SurviveSensorActivations_add_gen2 E G self ev).2.timecode = self.timecode ∧
      (SurviveSensorActivations_add_gen2 E G self ev).2.lengths = self.lengths ∧
      (SurviveSensorActivations_add_gen2 E G self ev).2.hits = self.hits) ∧
    (∀ ev : PoserDataLightGen1,
      (SurviveSensorActivations_check_outlier E G self ev.common.sensor_id ev.common.lh
        (ev.acode % 2) ev.common.hdr.timecode ev.common.angle).1 = true →
      ∃ s1 G1, SurviveSensorActivations_add E G self ev = some (false, s1, G1) ∧
        s1.angles = self.angles ∧ s1.timecode = self.timecode ∧
        s1.lengths = self.lengths ∧ s1.hits = self.hits) := by
  constructor
  · intro ev hpt hs hrej
    rw [check_outlier_fst] at hrej
    rw [add_gen2_reject E G self ev hpt hs hrej]
    obtain ⟨_, _, f3, f4, f5, f6, _⟩ := update_center_frame { self with lh_gen := 1 }
      (FLT.lit 5 100) ev.common.lh ev.plane
      (self.angles ev.common.sensor_id ev.common.lh ev.plane) ev.common.angle
    exact ⟨rfl, f3, f4, f5, f6⟩
  · intro ev hrej
    rw [check_outlier_fst] at hrej
    rw [add_reject E G self ev hrej]
    obtain ⟨_, _, f3, f4, f5, f6, _⟩ := update_center_frame { self with lh_gen := 0 }
      (FLT.lit 5 100) ev.common.lh (ev.acode % 2)
      (self.angles ev.common.sensor_id ev.common.lh (ev.acode % 2)) ev.common.angle
    exact ⟨_, _, rfl, f3, f4, f5, f6⟩

theorem rejected_sample_keeps_records_witness :
    ((SurviveSensorActivations_add_gen2 Env.reference scenario_globals scenario_second
        (gen2_event 0 0 0 1500000 (FLT.lit 21 100))).1 = false ∧
      (SurviveSensorActivations_add_gen2 Env.reference scenario_globals scenario_second
        (gen2_event 0 0 0 1500000 (FLT.lit 21 100))).2.angles = scenario_second.angles ∧
      (SurviveSensorActivations_add_gen2 Env.reference scenario_globals scenario_second
        (gen2_event 0 0 0 1500000 (FLT.lit 21 100))).2.timecode = scenario_second.timecode ∧
      (SurviveSensorActivations_add_gen2 Env.reference scenario_globals scenario_second
        (gen2_event 0 0 0 1500000 (FLT.lit 21 100))).2.lengths = scenario_second.lengths ∧
      (SurviveSensorActivations_add_gen2 Env.reference scenario_globals scenario_second
        (gen2_event 0 0 0 1500000 (FLT.lit 21 100))).2.hits = scenario_second.hits) ∧
    (∃ s1 G1, SurviveSensorActivations_add Env.reference scenario_globals scenario_second
        (gen1_event 0 0 0 1500000 (FLT.lit 21 100) (FLT.lit 1 10000)) = some (false, s1, G1) ∧
      s1.angles = scenario_second.angles ∧ s1.timecode = scenario_second.timecode ∧
      s1.lengths = scenario_second.lengths ∧ s1.hits = scenario_second.hits) :=
  ⟨(rejected_sample_keeps_records Env.reference scenario_globals scenario_second).1
      (gen2_event 0 0 0 1500000 (FLT.lit 21 100)) rfl (by decide) (by decide),
   (rejected_sample_keeps_records Env.reference scenario_globals scenario_second).2
      (gen1_event 0 0 0 1500000 (FLT.lit 21 100) (FLT.lit 1 10000)) (by decide)⟩

/-! ## Out-of-range sensors and unseen records -/

/-- C11, as stated, fails: a generation-2 event with sensor index 32, given to the freshly
constructed ledger, is refused, but the generation tag goes from `-1` to `1`. -/
theorem out_of_range_sensor_sets_lh_gen :
    (SurviveSensorActivations_add_gen2 Env.reference scenario_globals scenario_fresh
      (gen2_event 32 0 0 1000000 (FLT.lit 2 10))).1 = false ∧
    scenario_fresh.lh_gen = -1 ∧
    (SurviveSensorActivations_add_gen2 Env.reference scenario_globals scenario_fresh
      (gen2_event 32 0 0 1000000 (FLT.lit 2 10))).2.lh_gen = 1 ∧
    (SurviveSensorActivations_add_gen2 Env.reference scenario_globals scenario_fresh
      (gen2_event 32 0 0 1000000 (FLT.lit 2 10))).2.lh_gen ≠ scenario_fresh.lh_gen := by
  decide

/-- C11, amended: for every state and every generation-2 light event whose `sensor_id` is at
least `SENSORS_PER_OBJECT`, `SurviveSensorActivations_add_gen2` returns false and leaves every
field of the ledger as it was, except the generation tag `lh_gen`, which it sets to 1. -/
theorem out_of_range_sensor_refused (E : Env) (G : Globals) (self : SurviveSensorActivations)
    (ev : PoserDataLightGen2) (hpt : ev.common.hdr.pt = PoserType.POSERDATA_LIGHT_GEN2)
    (hs : ev.common.sensor_id ≥ E.SENSORS_PER_OBJECT) :
    SurviveSensorActivations_add_gen2 E G self ev = (false, { self with lh_gen := 1 }) := by
  unfold SurviveSensorActivations_add_gen2
  simp only [hpt, if_true, hs]

theorem out_of_range_sensor_refused_witness :
    SurviveSensorActivations_add_gen2 Env.reference scenario_globals scenario_fresh
      (gen2_event 32 0 0 1000000 (FLT.lit 2 10)) = (false, { scenario_fresh with lh_gen := 1 }) :=
  out_of_range_sensor_refused Env.reference scenario_globals scenario_fresh
    (gen2_event 32 0 0 1000000 (FLT.lit 2 10)) rfl (by decide)

/-- C12, as stated, fails, in three ways.  In the freshly constructed ledger the record of
sensor 0, lighthouse 0, axis 0 is unseen, yet with tolerance `UINT32_MAX` it reads as valid,
the age of an unseen record being the sentinel `UINT32_MAX`.  After a generation-2 event for
lighthouse 2 and a generation-1 event for lighthouse 0, the record of sensor 0, lighthouse 2,
axis 0 has pulse length 0 outside generation-2 mode, yet it reads as valid at tolerance 0, the
pulse length being looked at for lighthouses below 2 only.  And when `last_light` is
`UINT64_MAX`, the sentinel of an unseen record is not after it, so the record has age 0 and
reads as valid at tolerance 0. -/
theorem unseen_reads_valid :
    (spec_unseen scenario_fresh 0 0 0 = true ∧
     SurviveSensorActivations_time_since_last_reading scenario_fresh 0 0 0 = UINT32_MAX ∧
     SurviveSensorActivations_is_reading_valid scenario_fresh 4294967295 0 0 0 = true) ∧
    scenario_mixed.map (fun w => (w.2.lh_gen, w.2.lengths 0 2 0, spec_unseen w.2 0 2 0,
      SurviveSensorActivations_is_reading_valid w.2 0 0 2 0)) = some (0, 0, true, true) ∧
    (scenario_last_tick.last_light = UINT64_MAX ∧ spec_unseen scenario_last_tick 0 0 0 = true ∧
     SurviveSensorActivations_is_reading_valid scenario_last_tick 0 0 0 0 = true) := by
  decide

/-- C12, amended: for every state with `last_light` below `UINT64_MAX`, every slot whose angle
is NaN, or whose lighthouse index is below 2 and whose pulse length is 0 outside generation-2
mode, and every tolerance below `UINT32_MAX`, `SurviveSensorActivations_is_reading_valid`
returns false. -/
theorem unseen_is_not_valid (self : SurviveSensorActivations) (tolerance sensor : Nat)
    (lh axis : Int)
    (hun : (self.angles sensor lh axis).isnan = true ∨
      (self.lh_gen ≠ 1 ∧ lh < 2 ∧ self.lengths sensor lh axis = 0))
    (hll : self.last_light < UINT64_MAX) (htol : tolerance < UINT32_MAX) :
    SurviveSensorActivations_is_reading_valid self tolerance sensor lh axis = false := by
  have hrec : record_unseen self sensor lh axis = true := by
    unfold record_unseen
    rcases hun with h | h
    · rw [h, Bool.or_true]
    · rw [decide_eq_true h, Bool.true_or]
  unfold SurviveSensorActivations_is_reading_valid
    SurviveSensorActivations_time_since_last_reading
  rw [last_reading_eq, hrec]
  have h : UINT64_MAX > self.last_light := hll
  simp only [if_true, h, decide_eq_false_iff_not, not_le]
  exact htol

theorem unseen_is_not_valid_witness :
    SurviveSensorActivations_is_reading_valid scenario_first 2000000 1 0 0 = false ∧
    (SurviveSensorActivations_reset Env.reference scenario_first).lengths 0 1 0 = 0 ∧
    SurviveSensorActivations_is_reading_valid
      (SurviveSensorActivations_reset Env.reference scenario_first) 2000000 0 1 0 = false :=
  ⟨unseen_is_not_valid scenario_first 2000000 1 0 0 (Or.inl (by decide)) (by decide)
      (by decide), rfl,
   unseen_is_not_valid (SurviveSensorActivations_reset Env.reference scenario_first) 2000000 0
      1 0 (Or.inr (by decide)) (by decide) (by decide)⟩

/-! ## Reset -/

/-- A loop whose body leaves the state as it is on every member of the list does nothing. -/
theorem foldl_fixed {A ι : Type} (f : A → ι → A) (l : List ι) (a : A)
    (h : ∀ i ∈ l, f a i = a) : l.foldl f a = a := by
  induction l with
  | nil => rfl
  | cons i rest ih =>
    rw [List.foldl_cons, h i (List.mem_cons_self _ _)]
    exact ih (fun j hj => h j (List.mem_cons_of_mem _ hj))

/-- After reset every record within the array bounds reads as unseen. -/
theorem reset_last_reading (E : Env) (mem : SurviveSensorActivations) (sensor : Nat)
    (lh axis : Int) (hs : (sensor : Int) < E.SENSORS_PER_OBJECT) (hl0 : 0 ≤ lh)
    (hl1 : lh < E.NUM_GEN2_LIGHTHOUSES) (ha0 : 0 ≤ axis) (ha1 : axis < 2) :
    SurviveSensorActivations_last_reading (SurviveSensorActivations_reset E mem) sensor lh axis
      = UINT64_MAX := by
  rw [last_reading_eq]
  have hun : record_unseen (SurviveSensorActivations_reset E mem) sensor lh axis = true := by
    unfold record_unseen SurviveSensorActivations_reset
    have hin : (0 : Int) ≤ sensor ∧ (sensor : Int) < E.SENSORS_PER_OBJECT ∧ 0 ≤ lh ∧
        lh < E.NUM_GEN2_LIGHTHOUSES ∧ 0 ≤ axis ∧ axis < 2 := by omega
    simp [hin, FLT.isnan]
  rw [hun, if_pos rfl]

/-- C13: after `SurviveSensorActivations_reset`, every record within the array bounds reads as
unseen (`SurviveSensorActivations_last_reading` returns `UINT64_MAX`), and for every tolerance
and every context whose counts are within the array bounds the coverage query leaves all its
counters as they were, so counters that start at 0 report zero measurements. -/
theorem reset_reads_unseen (E : Env) (mem : SurviveSensorActivations) (so : SurviveObject)
    (ctx : SurviveContext) (tolerance : Nat) (c : Counts)
    (hso : mem.so = some so) (hctx : so.ctx = some ctx)
    (hSb : so.sensor_ct ≤ E.SENSORS_PER_OBJECT)
    (hLb : ctx.activeLighthouses ≤ E.NUM_GEN2_LIGHTHOUSES) :
    (∀ (sensor : Nat) (lh axis : Int), (sensor : Int) < E.SENSORS_PER_OBJECT → 0 ≤ lh →
      lh < E.NUM_GEN2_LIGHTHOUSES → 0 ≤ axis → axis < 2 →
      SurviveSensorActivations_last_reading (SurviveSensorActivations_reset E mem) sensor lh
        axis = UINT64_MAX) ∧
    SurviveSensorActivations_valid_counts (SurviveSensorActivations_reset E mem) tolerance c
      = some c := by
  refine ⟨fun sensor lh axis h1 h2 h3 h4 h5 =>
    reset_last_reading E mem sensor lh axis h1 h2 h3 h4 h5, ?_⟩
  unfold SurviveSensorActivations_valid_counts
  have hso1 : (SurviveSensorActivations_reset E mem).so = some so := hso
  simp only [hso1, hctx]
  have hW : (if tolerance = 0 then SurviveSensorActivations_default_tolerance
      else tolerance) % 2 ^ 32 < 2 ^ 32 := Nat.mod_lt _ (by norm_num)
  generalize (if tolerance = 0 then SurviveSensorActivations_default_tolerance
      else tolerance) % 2 ^ 32 = W at hW ⊢
  congr 1
  apply foldl_fixed
  intro lh hlh
  rw [List.mem_range] at hlh
  unfold valid_counts_lh
  by_cases hp : (ctx.bsd lh).PositionSet = true
  · have hfix : (List.range so.sensor_ct.toNat).foldl (valid_counts_sensor
        (SurviveSensorActivations_reset E mem) W lh) (c, false) = (c, false) := by
      apply foldl_fixed
      intro sensor hsensor
      rw [List.mem_range] at hsensor
      unfold valid_counts_sensor
      have hax : (List.range 2).foldl (valid_counts_axis (SurviveSensorActivations_reset E mem)
          W lh sensor) (c, false, false) = (c, false, false) := by
        apply foldl_fixed
        intro axis haxis
        rw [List.mem_range] at haxis
        unfold valid_counts_axis SurviveSensorActivations_time_since_last_reading
        rw [reset_last_reading E mem sensor lh axis (by omega) (by omega) (by omega) (by omega)
          (by omega)]
        have h0 : (SurviveSensorActivations_reset E mem).last_light = 0 := rfl
        simp only [h0, UINT64_MAX, UINT32_MAX]
        norm_num at hW ⊢
        omega
      simp only [hax]
    simp only [hp, not_true_eq_false, if_false, hfix]
  · rw [if_pos hp]

theorem reset_reads_unseen_witness :
    SurviveSensorActivations_valid_counts
      (SurviveSensorActivations_reset Env.reference scenario_second) 2000000 meas_only
      = some meas_only :=
  (reset_reads_unseen Env.reference scenario_second scenario_so scenario_ctx 2000000 meas_only
    rfl rfl (by decide) (by decide)).2

/-- C14: `SurviveSensorActivations_reset` applied twice gives the state it gives applied once.
That state keeps the back-reference `so` and nothing else of the state it started from; within
the array bounds every angle is NaN and reads as unseen, every timecode, pulse length, hit
count and tracker count is 0, the three time stamps are 0, and the IMU warm-up countdown
is 30. -/
theorem reset_idempotent (E : Env) (s : SurviveSensorActivations) :
    SurviveSensorActivations_reset E (SurviveSensorActivations_reset E s)
      = SurviveSensorActivations_reset E s ∧
    (SurviveSensorActivations_reset E s).so = s.so ∧
    (∀ s1 : SurviveSensorActivations, s1.so = s.so →
      SurviveSensorActivations_reset E s1 = SurviveSensorActivations_reset E s) ∧
    (∀ (sensor : Nat) (lh axis : Int), (sensor : Int) < E.SENSORS_PER_OBJECT → 0 ≤ lh →
      lh < E.NUM_GEN2_LIGHTHOUSES → 0 ≤ axis → axis < 2 →
      (SurviveSensorActivations_reset E s).angles sensor lh axis = FLT.nan ∧
      record_unseen (SurviveSensorActivations_reset E s) sensor lh axis = true ∧
      (SurviveSensorActivations_reset E s).timecode sensor lh axis = 0 ∧
      (SurviveSensorActivations_reset E s).lengths sensor lh axis = 0 ∧
      (SurviveSensorActivations_reset E s).hits sensor lh axis = 0 ∧
      (SurviveSensorActivations_reset E s).angles_center_cnt lh axis = 0 ∧
      (SurviveSensorActivations_reset E s).angles_center_dev lh axis = FLT.zero) ∧
    (SurviveSensorActivations_reset E s).last_light = 0 ∧
    (SurviveSensorActivations_reset E s).last_imu = 0 ∧
    (SurviveSensorActivations_reset E s).last_movement = 0 ∧
    (SurviveSensorActivations_reset E s).imu_init_cnt = 30 := by
  refine ⟨rfl, rfl, ?_, ?_, rfl, rfl, rfl, rfl⟩
  · intro s1 h
    unfold SurviveSensorActivations_reset
    rw [h]
  · intro sensor lh axis h1 h2 h3 h4 h5
    have hin : (0 : Int) ≤ sensor ∧ (sensor : Int) < E.SENSORS_PER_OBJECT ∧ 0 ≤ lh ∧
        lh < E.NUM_GEN2_LIGHTHOUSES ∧ 0 ≤ axis ∧ axis < 2 := by omega
    have ha : (SurviveSensorActivations_reset E s).angles sensor lh axis = FLT.nan := by
      unfold SurviveSensorActivations_reset
      simp only [hin, and_self, if_true]
    refine ⟨ha, ?_, rfl, rfl, rfl, rfl, rfl⟩
    unfold record_unseen
    rw [ha]
    simp [FLT.isnan]

theorem reset_idempotent_witness :
    (SurviveSensorActivations_reset Env.reference scenario_second).angles 0 0 0 = FLT.nan ∧
    scenario_second.angles 0 0 0 = FLT.lit 52 10 ∧
    SurviveSensorActivations_reset Env.reference scenario_first
      = SurviveSensorActivations_reset Env.reference scenario_second :=
  ⟨((reset_idempotent Env.reference scenario_second).2.2.2.1 0 0 0 (by decide) (by decide)
      (by decide) (by decide) (by decide)).1, by decide,
   (reset_idempotent Env.reference scenario_second).2.2.1 scenario_first rfl⟩

/-! ## The inertial store -/

/-- C15: while the warm-up countdown is positive, `SurviveSensorActivations_add_imu` sets
`last_imu` to the sample's timecode, lowers `imu_init_cnt` by exactly one, and leaves every
other field, the three averages and `last_movement` among them, as it was. -/
theorem add_imu_warm_up (E : Env) (G : Globals) (self : SurviveSensorActivations)
    (imuData : PoserDataIMU) (h : self.imu_init_cnt > 0) :
    SurviveSensorActivations_add_imu E G self imuData =
      { self with last_imu := imuData.hdr.timecode, imu_init_cnt := self.imu_init_cnt - 1 } ∧
    (SurviveSensorActivations_add_imu E G self imuData).accel = self.accel ∧
    (SurviveSensorActivations_add_imu E G self imuData).gyro = self.gyro ∧
    (SurviveSensorActivations_add_imu E G self imuData).mag = self.mag ∧
    (SurviveSensorActivations_add_imu E G self imuData).last_movement = self.last_movement := by
  have e : SurviveSensorActivations_add_imu E G self imuData =
      { self with last_imu := imuData.hdr.timecode, imu_init_cnt := self.imu_init_cnt - 1 } := by
    unfold SurviveSensorActivations_add_imu
    simp only [h, if_true]
  rw [e]
  exact ⟨rfl, rfl, rfl, rfl, rfl⟩

theorem add_imu_warm_up_witness :
    (SurviveSensorActivations_add_imu Env.linmath scenario_globals scenario_first
      moving_sample).imu_init_cnt = 29 ∧
    (SurviveSensorActivations_add_imu Env.linmath scenario_globals scenario_first
      moving_sample).last_movement = scenario_first.last_movement :=
  ⟨by rw [(add_imu_warm_up Env.linmath scenario_globals scenario_first moving_sample
      (by decide)).1]; decide,
   (add_imu_warm_up Env.linmath scenario_globals scenario_first moving_sample
      (by decide)).2.2.2.2⟩

/-- C16, as stated, fails: the ledger past warm-up has `last_light` at 1,000,000; after an IMU
sample at timecode 500,000 whose gyro norm 1 exceeds the threshold .075, the stationary time
is 500,000, the distance from the sample to `last_light`. -/
theorem stationary_time_not_zero :
    scenario_warm.imu_init_cnt = 0 ∧ scenario_warm.last_light = 1000000 ∧
    FLT.gt (Env.linmath.norm3d moving_sample.gyro) scenario_globals.moveThresholdGyro = true ∧
    SurviveSensorActivations_stationary_time
      (SurviveSensorActivations_add_imu Env.linmath scenario_globals scenario_warm
        moving_sample) = some 500000 := by
  set_option maxRecDepth 4000 in decide

/-- The ledger after an IMU sample past warm-up that counts as movement. -/
theorem add_imu_moving (E : Env) (G : Globals) (self : SurviveSensorActivations)
    (imuData : PoserDataIMU) (hc : ¬ self.imu_init_cnt > 0)
    (hg : FLT.gt (E.norm3d imuData.gyro) G.moveThresholdGyro = true) :
    (SurviveSensorActivations_add_imu E G self imuData).last_movement = imuData.hdr.timecode ∧
    (SurviveSensorActivations_add_imu E G self imuData).last_imu = imuData.hdr.timecode ∧
    (SurviveSensorActivations_add_imu E G self imuData).last_light = self.last_light := by
  unfold SurviveSensorActivations_add_imu
  simp only [hc, if_false, hg, true_or, if_true]
  split_ifs <;> simp

/-- C16, amended: for every state past warm-up, after `SurviveSensorActivations_add_imu`
ingests a sample whose gyro norm exceeds the gyro threshold, the next
`SurviveSensorActivations_stationary_time` query returns the distance from the sample's
timecode to the later of `last_light` and that timecode (0 for a sample with timecode 0); it
returns 0 when `last_light` is not after the sample's timecode. -/
theorem stationary_time_after_movement (E : Env) (G : Globals)
    (self : SurviveSensorActivations) (imuData : PoserDataIMU) (hc : self.imu_init_cnt ≤ 0)
    (hg : FLT.gt (E.norm3d imuData.gyro) G.moveThresholdGyro = true) :
    SurviveSensorActivations_stationary_time (SurviveSensorActivations_add_imu E G self imuData)
      = some (if imuData.hdr.timecode = 0 then 0
          else if self.last_light > imuData.hdr.timecode
            then self.last_light - imuData.hdr.timecode else 0) ∧
    (self.last_light ≤ imuData.hdr.timecode →
      SurviveSensorActivations_stationary_time
        (SurviveSensorActivations_add_imu E G self imuData) = some 0) := by
  obtain ⟨h1, h2, h3⟩ := add_imu_moving E G self imuData (by omega) hg
  have key : SurviveSensorActivations_stationary_time
      (SurviveSensorActivations_add_imu E G self imuData)
      = some (if imuData.hdr.timecode = 0 then 0
          else if self.last_light > imuData.hdr.timecode
            then self.last_light - imuData.hdr.timecode else 0) := by
    unfold SurviveSensorActivations_stationary_time SurviveSensorActivations_last_time
    rw [h1, h2, h3]
    by_cases h0 : imuData.hdr.timecode = 0
    · simp only [h0, if_true]
    · by_cases hl : self.last_light > imuData.hdr.timecode
      · have hn : ¬ imuData.hdr.timecode > self.last_light := by omega
        have hle : imuData.hdr.timecode ≤ self.last_light := by omega
        simp only [h0, if_false, hn, hl, hle, if_true]
      · have hle : imuData.hdr.timecode ≤
            (if imuData.hdr.timecode > self.last_light then imuData.hdr.timecode
              else self.last_light) := by split_ifs <;> omega
        simp only [h0, if_false, hl, hle, if_true]
        congr 1
        split_ifs <;> omega
  refine ⟨key, fun hl => ?_⟩
  rw [key]
  congr 1
  split_ifs <;> omega

theorem stationary_time_after_movement_witness :
    SurviveSensorActivations_stationary_time
      (SurviveSensorActivations_add_imu Env.linmath scenario_globals scenario_warm
        late_moving_sample) = some 0 :=
  (stationary_time_after_movement Env.linmath scenario_globals scenario_warm late_moving_sample
    (by set_option maxRecDepth 4000 in decide)
    (by set_option maxRecDepth 4000 in decide)).2 (by decide)

/-- C19: for `prev` and a true time `t` both below `2^63` and less than `2^31` apart, forward
or backward, `make_long_timecode prev (t mod 2^32)` is `t`; so
`make_long_timecode prev (prev mod 2^32)` is `prev`. -/
theorem make_long_timecode_exact (prev t : Nat) (hp : prev < 2 ^ 63) (ht : t < 2 ^ 63)
    (h1 : t < prev + 2 ^ 31) (h2 : prev < t + 2 ^ 31) :
    make_long_timecode prev (t % 2 ^ 32) = t ∧
    make_long_timecode prev (prev % 2 ^ 32) = prev := by
  constructor
  · exact make_long_timecode_step prev t (by omega) (by omega) h1 h2
  · exact make_long_timecode_step prev prev (by omega) (by omega) (by omega) (by omega)

theorem make_long_timecode_exact_witness :
    make_long_timecode 8589934600 (8589934500 % 2 ^ 32) = 8589934500 ∧
    make_long_timecode 8589934600 4294967204 = 8589934500 :=
  ⟨(make_long_timecode_exact 8589934600 8589934500 (by norm_num) (by norm_num) (by norm_num)
      (by norm_num)).1, by decide⟩

/-! ## The snapshot difference -/

/-- Rounding carries the sign through. -/
theorem round_neg (s : Bool) (n d : Nat) : FLT.neg (FLT.round s n d) = FLT.round (!s) n d := by
  unfold FLT.round
  dsimp only
  split_ifs <;> rfl

/-- A square does not see the sign. -/
theorem mul_neg_neg (x : FLT) : FLT.mul (FLT.neg x) (FLT.neg x) = FLT.mul x x := by
  cases x with
  | nan => rfl
  | inf s => cases s <;> rfl
  | fin s m e => cases s <;> rfl

/-- Swapping the operands of a subtraction negates the result, or leaves it as it is (a NaN,
or the `+0.0` of two equal operands). -/
theorem sub_swap (x y : FLT) :
    FLT.sub x y = FLT.neg (FLT.sub y x) ∨ FLT.sub x y = FLT.sub y x := by
  cases x with
  | nan => cases y <;> exact Or.inr rfl
  | inf s =>
    cases y with
    | nan => exact Or.inr rfl
    | inf t => cases s <;> cases t <;> simp [FLT.sub, FLT.add, FLT.neg]
    | fin t n f => cases s <;> simp [FLT.sub, FLT.add, FLT.neg]
  | fin s m e =>
    cases y with
    | nan => exact Or.inr rfl
    | inf t => cases t <;> simp [FLT.sub, FLT.add, FLT.neg]
    | fin t n f =>
      have hn1 : FLT.neg (FLT.fin t n f) = FLT.fin (!t) n f := rfl
      have hn2 : FLT.neg (FLT.fin s m e) = FLT.fin (!s) m e := rfl
      have hz : FLT.neg (FLT.fin false 0 0) = FLT.fin true 0 0 := rfl
      simp only [FLT.sub, hn1, hn2, FLT.add]
      rcases Nat.lt_trichotomy (m <<< e) (n <<< f) with h | h | h
      · have h1 : ¬ n <<< f < m <<< e := by omega
        cases s <;> cases t <;>
          simp [h, h1, round_neg, Nat.add_comm (m <<< e) (n <<< f)]
      · cases s <;> cases t <;>
          simp [h, round_neg]
      · have h1 : ¬ m <<< e < n <<< f := by omega
        cases s <;> cases t <;>
          simp [h, h1, round_neg, Nat.add_comm (m <<< e) (n <<< f)]

/-- The squared difference of two values is the same in either order. -/
theorem sq_sub_swap (x y : FLT) :
    FLT.mul (FLT.sub x y) (FLT.sub x y) = FLT.mul (FLT.sub y x) (FLT.sub y x) := by
  rcases sub_swap x y with h | h
  · rw [h, mul_neg_neg]
  · rw [h]

/-- The loop body of the difference is the same for the two orders of the snapshots. -/
theorem difference_slot_swap (a b : SurviveSensorActivations) (i lh : Nat) (acc : FLT × Int)
    (axis : Nat) : difference_slot a b i lh acc axis = difference_slot b a i lh acc axis := by
  unfold difference_slot
  by_cases h : a.lengths i lh axis > 0 ∧ b.lengths i lh axis > 0
  · rw [if_pos h, if_pos h.symm]
    dsimp only
    rw [sq_sub_swap]
  · rw [if_neg h, if_neg (fun h1 => h h1.symm)]

/-- The loop state after one comparable slot: its squared difference is added to `rtn`, and
`cnt` goes up by one. -/
theorem difference_slot_eq (a b : SurviveSensorActivations) (i lh : Nat) (l : List Nat)
    (acc : FLT × Int) :
    l.foldl (difference_slot a b i lh) acc =
      ((l.filter (fun (axis : Nat) =>
        decide (a.lengths i lh axis ≠ 0 ∧ b.lengths i lh axis ≠ 0))).map
        (fun (axis : Nat) => (i, lh, axis))).foldl
        (fun r slot => (FLT.add r.1 (squared_difference a b slot), r.2 + 1)) acc := by
  induction l generalizing acc with
  | nil => rfl
  | cons x xs ih =>
    rw [List.foldl_cons, ih]
    by_cases h : a.lengths i lh x ≠ 0 ∧ b.lengths i lh x ≠ 0
    · have h1 : a.lengths i lh x > 0 ∧ b.lengths i lh x > 0 :=
        ⟨Nat.pos_of_ne_zero h.1, Nat.pos_of_ne_zero h.2⟩
      rw [List.filter_cons_of_pos (by simpa using h), List.map_cons, List.foldl_cons]
      unfold difference_slot squared_difference
      rw [if_pos h1]
    · have h1 : ¬ (a.lengths i lh x > 0 ∧ b.lengths i lh x > 0) :=
        fun hh => h ⟨Nat.pos_iff_ne_zero.mp hh.1, Nat.pos_iff_ne_zero.mp hh.2⟩
      rw [List.filter_cons_of_neg (by simpa using h)]
      unfold difference_slot
      rw [if_neg h1]

/-- The loop state after a list of comparable slots: `rtn` is the sum of their squared
differences, added in order, and `cnt` their number. -/
theorem foldl_comparable (a b : SurviveSensorActivations) (l : List (Nat × Nat × Nat))
    (x : FLT) (n : Int) :
    l.foldl (fun r slot => (FLT.add r.1 (squared_difference a b slot), r.2 + 1)) (x, n) =
      ((l.map (squared_difference a b)).foldl FLT.add x, n + (l.length : Int)) := by
  induction l generalizing x n with
  | nil => simp
  | cons s rest ih =>
    rw [List.foldl_cons, ih, List.map_cons, List.foldl_cons, List.length_cons]
    congr 1
    push_cast
    omega

/-- The function computes the mean squared difference of the specification. -/
theorem difference_eq_spec (E : Env) (a b : SurviveSensorActivations) :
    SurviveSensorActivations_difference E a b = spec_difference E a b := by
  unfold SurviveSensorActivations_difference spec_difference
  have hloops : (List.range E.SENSORS_PER_OBJECT.toNat).foldl (fun acc (i : Nat) =>
      (List.range E.NUM_GEN1_LIGHTHOUSES.toNat).foldl (fun acc (lh : Nat) =>
        (List.range 2).foldl (difference_slot a b i lh) acc) acc) (FLT.ofInt 0, (0 : Int))
      = (comparable_slots E a b).foldl
        (fun r slot => (FLT.add r.1 (squared_difference a b slot), r.2 + 1))
        (FLT.ofInt 0, (0 : Int)) := by
    unfold comparable_slots
    rw [List.foldl_flatten, List.foldl_map]
    congr 1
    funext acc i
    rw [List.foldl_flatten, List.foldl_map]
    congr 1
    funext acc lh
    exact difference_slot_eq a b i lh (List.range 2) acc
  rw [hloops, foldl_comparable]
  simp only [zero_add]

/-- C17, as stated, fails: two generation-2 ledgers have no slot with a pulse length, so the
difference is `0.0 / 0`, a NaN, in either order, and the C comparison `==` of the two results
is false. -/
theorem difference_of_gen2_ledgers_is_nan :
    comparable_slots Env.reference scenario_first scenario_second = [] ∧
    SurviveSensorActivations_difference Env.reference scenario_first scenario_second
      = FLT.nan ∧
    SurviveSensorActivations_difference Env.reference scenario_second scenario_first
      = FLT.nan ∧
    FLT.eq (SurviveSensorActivations_difference Env.reference scenario_first scenario_second)
      (SurviveSensorActivations_difference Env.reference scenario_second scenario_first)
      = false := by
  set_option maxRecDepth 8000 in decide

/-- C17, amended: for all pairs of snapshots `a` and `b`, `SurviveSensorActivations_difference`
returns the same value for `(a, b)` and for `(b, a)`: the sum of the squared angle differences
over the slots in which both snapshots have a non-zero pulse length, added in slot order,
divided by the number of such slots.  The two results compare equal under the C `==` when
that value is not a NaN; with no such slot it is the NaN `0.0 / 0`, and `==` is false. -/
theorem difference_symmetric (E : Env) (a b : SurviveSensorActivations) :
    SurviveSensorActivations_difference E a b = spec_difference E a b ∧
    SurviveSensorActivations_difference E b a = spec_difference E b a ∧
    SurviveSensorActivations_difference E a b = SurviveSensorActivations_difference E b a ∧
    ((SurviveSensorActivations_difference E a b).isnan = false →
      FLT.eq (SurviveSensorActivations_difference E a b)
        (SurviveSensorActivations_difference E b a) = true) ∧
    (comparable_slots E a b = [] →
      SurviveSensorActivations_difference E a b = FLT.nan ∧
      FLT.eq (SurviveSensorActivations_difference E a b)
        (SurviveSensorActivations_difference E b a) = false) := by
  have hstep : difference_slot a b = difference_slot b a := by
    funext i lh acc axis
    exact difference_slot_swap a b i lh acc axis
  have e : SurviveSensorActivations_difference E a b
      = SurviveSensorActivations_difference E b a := by
    unfold SurviveSensorActivations_difference
    rw [hstep]
  refine ⟨difference_eq_spec E a b, difference_eq_spec E b a, e, ?_, ?_⟩
  · intro hn
    rw [← e]
    cases h : SurviveSensorActivations_difference E a b with
    | nan => rw [h] at hn; simp [FLT.isnan] at hn
    | inf s => cases s <;> simp [FLT.eq, FLT.key]
    | fin s m k => cases s <;> simp [FLT.eq, FLT.key]
  · intro hempty
    have hnan : SurviveSensorActivations_difference E a b = FLT.nan := by
      rw [difference_eq_spec]
      unfold spec_difference
      rw [hempty]
      simp only [List.map_nil, List.foldl_nil, List.length_nil, Nat.cast_zero]
      decide
    rw [← e, hnan]
    exact ⟨rfl, rfl⟩

theorem difference_symmetric_witness :
    FLT.eq
      (SurviveSensorActivations_difference Env.reference (scenario_gen1 (FLT.lit 2 10))
        (scenario_gen1 (FLT.lit 25 100)))
      (SurviveSensorActivations_difference Env.reference (scenario_gen1 (FLT.lit 25 100))
        (scenario_gen1 (FLT.lit 2 10))) = true ∧
    comparable_slots Env.reference (scenario_gen1 (FLT.lit 2 10))
      (scenario_gen1 (FLT.lit 25 100)) = [(0, 0, 0)] ∧
    SurviveSensorActivations_difference Env.reference scenario_first scenario_second
      = FLT.nan :=
  ⟨(difference_symmetric Env.reference (scenario_gen1 (FLT.lit 2 10))
      (scenario_gen1 (FLT.lit 25 100))).2.2.2.1
      (by set_option maxRecDepth 8000 in decide),
   by set_option maxRecDepth 8000 in decide,
   ((difference_symmetric Env.reference scenario_first scenario_second).2.2.2.2
      (by set_option maxRecDepth 8000 in decide)).1⟩

/-! ## Invariants of the reachable states -/

/-- The center update at `(lh0, axis0)`, seen from `(lh, axis)`: there it makes the count
positive, elsewhere it leaves count and deviation as they were. -/
theorem update_center_at (s : SurviveSensorActivations) (alpha : FLT) (lh0 axis0 : Int)
    (oldval angle : FLT) (lh axis : Int) :
    ((lh = lh0 ∧ axis = axis0) → 0 ≤ s.angles_center_cnt lh axis →
      1 ≤ (SurviveSensorActivations_update_center s alpha lh0 axis0 oldval angle
        ).angles_center_cnt lh axis) ∧
    (¬ (lh = lh0 ∧ axis = axis0) →
      (SurviveSensorActivations_update_center s alpha lh0 axis0 oldval angle
        ).angles_center_cnt lh axis = s.angles_center_cnt lh axis ∧
      (SurviveSensorActivations_update_center s alpha lh0 axis0 oldval angle
        ).angles_center_dev lh axis = s.angles_center_dev lh axis) := by
  unfold SurviveSensorActivations_update_center
  dsimp only
  constructor
  · rintro ⟨rfl, rfl⟩ h0
    split_ifs <;> simp [set2] <;> omega
  · intro hne
    split_ifs <;> simp [set2, hne]

/-- The tracker and the time stamps after a generation-2 ingest, on every path: the tracker is
the one the filter leaves when the filter ran, and the one before otherwise; `last_imu` is as
before, `last_light` has not gone back, and `last_movement` is as before or not after
`last_light`. -/
theorem add_gen2_fields (E : Env) (G : Globals) (s : SurviveSensorActivations)
    (ev : PoserDataLightGen2) :
    ((ev.common.hdr.pt = PoserType.POSERDATA_LIGHT_GEN2 ∧
        ev.common.sensor_id < E.SENSORS_PER_OBJECT) →
      ∃ alpha,
        (SurviveSensorActivations_add_gen2 E G s ev).2.angles_center_cnt =
          (SurviveSensorActivations_update_center { s with lh_gen := 1 } alpha ev.common.lh
            ev.plane (s.angles ev.common.sensor_id ev.common.lh ev.plane)
            ev.common.angle).angles_center_cnt ∧
        (SurviveSensorActivations_add_gen2 E G s ev).2.angles_center_dev =
          (SurviveSensorActivations_update_center { s with lh_gen := 1 } alpha ev.common.lh
            ev.plane (s.angles ev.common.sensor_id ev.common.lh ev.plane)
            ev.common.angle).angles_center_dev) ∧
    (¬ (ev.common.hdr.pt = PoserType.POSERDATA_LIGHT_GEN2 ∧
        ev.common.sensor_id < E.SENSORS_PER_OBJECT) →
      (SurviveSensorActivations_add_gen2 E G s ev).2.angles_center_cnt = s.angles_center_cnt ∧
      (SurviveSensorActivations_add_gen2 E G s ev).2.angles_center_dev = s.angles_center_dev) ∧
    (SurviveSensorActivations_add_gen2 E G s ev).2.last_imu = s.last_imu ∧
    s.last_light ≤ (SurviveSensorActivations_add_gen2 E G s ev).2.last_light ∧
    ((SurviveSensorActivations_add_gen2 E G s ev).2.last_movement = s.last_movement ∨
      (SurviveSensorActivations_add_gen2 E G s ev).2.last_movement ≤
        (SurviveSensorActivations_add_gen2 E G s ev).2.last_light) := by
  by_cases hpt : ev.common.hdr.pt = PoserType.POSERDATA_LIGHT_GEN2
  · by_cases hs : ev.common.sensor_id < E.SENSORS_PER_OBJECT
    · cases hrej : check_outlier_rejects E G s ev.common.sensor_id ev.common.lh ev.plane
        ev.common.hdr.timecode ev.common.angle
      · obtain ⟨_, _, _, _, _, a6, _, _, _, a10, a11⟩ := add_gen2_accept E G s ev hpt hs hrej
        have hf := update_center_frame { s with lh_gen := 1 } (FLT.lit 1 10) ev.common.lh
          ev.plane (s.angles ev.common.sensor_id ev.common.lh ev.plane) ev.common.angle
        simp only at hf
        obtain ⟨_, _, f3, _, _, _, f7, f8, _, f10, _⟩ := hf
        refine ⟨fun _ => ⟨FLT.lit 1 10, a11, a10⟩, fun h => absurd ⟨hpt, hs⟩ h, ?_, ?_, ?_⟩
        · cases hnan : (s.angles ev.common.sensor_id ev.common.lh ev.plane).isnan <;>
          cases hgt : FLT.gt (FLT.fabs (FLT.sub
              (s.angles ev.common.sensor_id ev.common.lh ev.plane) ev.common.angle))
              G.moveThresholdAng <;>
          by_cases c3 : s.last_light < ev.common.hdr.timecode <;>
          simp [SurviveSensorActivations_add_gen2, update_last_light, hpt, not_le.mpr hs,
            check_outlier_fst, check_outlier_snd, check_outlier_rejects_lh_gen, hrej, f3, f7,
            f8, hnan, hgt, c3]
        · rw [a6]; split_ifs <;> omega
        · rw [a6]
          cases hnan : (s.angles ev.common.sensor_id ev.common.lh ev.plane).isnan <;>
          cases hgt : FLT.gt (FLT.fabs (FLT.sub
              (s.angles ev.common.sensor_id ev.common.lh ev.plane) ev.common.angle))
              G.moveThresholdAng <;>
          by_cases c3 : s.last_light < ev.common.hdr.timecode <;>
          simp [SurviveSensorActivations_add_gen2, update_last_light, hpt, not_le.mpr hs,
            check_outlier_fst, check_outlier_snd, check_outlier_rejects_lh_gen, hrej, f3, f7,
            f8, f10, hnan, hgt, c3] <;> omega
      · rw [add_gen2_reject E G s ev hpt hs hrej]
        have hf := update_center_frame { s with lh_gen := 1 } (FLT.lit 5 100) ev.common.lh
          ev.plane (s.angles ev.common.sensor_id ev.common.lh ev.plane) ev.common.angle
        simp only at hf
        obtain ⟨_, _, _, _, _, _, f7, f8, _, f10, _⟩ := hf
        exact ⟨fun _ => ⟨FLT.lit 5 100, rfl, rfl⟩, fun h => absurd ⟨hpt, hs⟩ h, f7,
          le_of_eq f8.symm, Or.inl f10⟩
    · have e : SurviveSensorActivations_add_gen2 E G s ev = (false, { s with lh_gen := 1 }) := by
        unfold SurviveSensorActivations_add_gen2
        simp only [hpt, if_true, ge_iff_le, not_lt.mp hs]
      rw [e]
      exact ⟨fun h => absurd h.2 hs, fun _ => ⟨rfl, rfl⟩, rfl, le_refl _, Or.inl rfl⟩
  · have e : SurviveSensorActivations_add_gen2 E G s ev =
        (true, update_last_light { s with lh_gen := 1 } ev.common.hdr.timecode) := by
      unfold SurviveSensorActivations_add_gen2
      simp only [hpt, if_false]
    rw [e]
    unfold update_last_light
    refine ⟨fun h => absurd h.1 hpt, fun _ => ?_, ?_, ?_, ?_⟩ <;> dsimp only <;>
      split_ifs <;> first | exact ⟨rfl, rfl⟩ | rfl | exact Or.inl rfl | (dsimp only; omega)

/-- The tracker and the time stamps after a generation-1 ingest that has a defined result: the
tracker is the one the filter leaves; `last_imu` is as before, `last_light` has not gone back,
and `last_movement` is as before or not after `last_light`. -/
theorem add_fields (E : Env) (G : Globals) (s : SurviveSensorActivations)
    (ev : PoserDataLightGen1) (r : Bool × SurviveSensorActivations × Globals)
    (h : SurviveSensorActivations_add E G s ev = some r) :
    (∃ alpha,
      r.2.1.angles_center_cnt =
        (SurviveSensorActivations_update_center { s with lh_gen := 0 } alpha ev.common.lh
          (ev.acode % 2) (s.angles ev.common.sensor_id ev.common.lh (ev.acode % 2))
          ev.common.angle).angles_center_cnt ∧
      r.2.1.angles_center_dev =
        (SurviveSensorActivations_update_center { s with lh_gen := 0 } alpha ev.common.lh
          (ev.acode % 2) (s.angles ev.common.sensor_id ev.common.lh (ev.acode % 2))
          ev.common.angle).angles_center_dev) ∧
    r.2.1.last_imu = s.last_imu ∧ s.last_light ≤ r.2.1.last_light ∧
    (r.2.1.last_movement = s.last_movement ∨ r.2.1.last_movement ≤ r.2.1.last_light) := by
  cases hrej : check_outlier_rejects E G s ev.common.sensor_id ev.common.lh (ev.acode % 2)
    ev.common.hdr.timecode ev.common.angle
  · have hf := update_center_frame { s with lh_gen := 0 } (FLT.lit 1 10) ev.common.lh
      (ev.acode % 2) (s.angles ev.common.sensor_id ev.common.lh (ev.acode % 2)) ev.common.angle
    simp only at hf
    unfold SurviveSensorActivations_add at h
    simp only [check_outlier_fst, check_outlier_snd, check_outlier_rejects_lh_gen, hrej,
      Bool.false_eq_true, if_false] at h
    suffices hh : (r.2.1.angles_center_cnt =
        (SurviveSensorActivations_update_center { s with lh_gen := 0 } (FLT.lit 1 10)
          ev.common.lh (ev.acode % 2) (s.angles ev.common.sensor_id ev.common.lh (ev.acode % 2))
          ev.common.angle).angles_center_cnt ∧
      r.2.1.angles_center_dev =
        (SurviveSensorActivations_update_center { s with lh_gen := 0 } (FLT.lit 1 10)
          ev.common.lh (ev.acode % 2) (s.angles ev.common.sensor_id ev.common.lh (ev.acode % 2))
          ev.common.angle).angles_center_dev) ∧
      r.2.1.last_imu = s.last_imu ∧ s.last_light ≤ r.2.1.last_light ∧
      (r.2.1.last_movement = s.last_movement ∨ r.2.1.last_movement ≤ r.2.1.last_light) from
      ⟨⟨FLT.lit 1 10, hh.1⟩, hh.2⟩
    generalize SurviveSensorActivations_update_center { s with lh_gen := 0 } (FLT.lit 1 10)
      ev.common.lh (ev.acode % 2) (s.angles ev.common.sensor_id ev.common.lh (ev.acode % 2))
      ev.common.angle = u at hf h ⊢
    obtain ⟨_, _, _, _, _, _, f7, f8, _, f10, _⟩ := hf
    by_cases c1 : (u.lengths ev.common.sensor_id ev.common.lh (ev.acode % 2) = 0 ∨
        FLT.gt (FLT.fabs (FLT.sub (u.angles ev.common.sensor_id ev.common.lh (ev.acode % 2))
          ev.common.angle)) G.moveThresholdAng = true)
    · simp only [c1, if_true] at h
      cases hu : u.so with
      | none => simp [hu] at h
      | some so =>
        cases hlen : (FLT.mul ev.length (FLT.ofInt 48000000)).toUInt32 with
        | none => simp [hu, hlen] at h
        | some len =>
          simp only [hu, hlen, Option.some.injEq] at h
          subst h
          unfold update_last_light
          refine ⟨⟨?_, ?_⟩, ?_, ?_, ?_⟩
          · dsimp only; split_ifs <;> rfl
          · dsimp only; split_ifs <;> rfl
          · dsimp only; split_ifs <;> exact f7
          · dsimp only; split_ifs <;> dsimp only <;> omega
          · dsimp only; split_ifs <;> dsimp only <;> (right; omega)
    · simp only [c1, if_false] at h
      cases hu : u.so with
      | none => simp [hu] at h
      | some so =>
        cases hlen : (FLT.mul ev.length (FLT.ofInt 48000000)).toUInt32 with
        | none => simp [hu, hlen] at h
        | some len =>
          simp only [hu, hlen, Option.some.injEq] at h
          subst h
          unfold update_last_light
          refine ⟨⟨?_, ?_⟩, ?_, ?_, ?_⟩
          · dsimp only; split_ifs <;> rfl
          · dsimp only; split_ifs <;> rfl
          · dsimp only; split_ifs <;> exact f7
          · dsimp only; split_ifs <;> dsimp only <;> omega
          · dsimp only; split_ifs <;> exact Or.inl f10
  · rw [add_reject E G s ev hrej] at h
    simp only [Option.some.injEq] at h
    subst h
    have hf := update_center_frame { s with lh_gen := 0 } (FLT.lit 5 100) ev.common.lh
      (ev.acode % 2) (s.angles ev.common.sensor_id ev.common.lh (ev.acode % 2)) ev.common.angle
    simp only at hf
    obtain ⟨_, _, _, _, _, _, f7, f8, _, f10, _⟩ := hf
    exact ⟨⟨FLT.lit 5 100, rfl, rfl⟩, f7, le_of_eq f8.symm, Or.inl f10⟩

/-- The tracker and the time stamps after an IMU sample: the tracker and `last_light` are as
before, `last_imu` is the sample's timecode, and `last_movement` is as before or that
timecode. -/
theorem add_imu_fields (E : Env) (G : Globals) (s : SurviveSensorActivations)
    (imuData : PoserDataIMU) :
    (SurviveSensorActivations_add_imu E G s imuData).angles_center_cnt = s.angles_center_cnt ∧
    (SurviveSensorActivations_add_imu E G s imuData).angles_center_dev = s.angles_center_dev ∧
    (SurviveSensorActivations_add_imu E G s imuData).last_imu = imuData.hdr.timecode ∧
    (SurviveSensorActivations_add_imu E G s imuData).last_light = s.last_light ∧
    ((SurviveSensorActivations_add_imu E G s imuData).last_movement = s.last_movement ∨
      (SurviveSensorActivations_add_imu E G s imuData).last_movement = imuData.hdr.timecode) := by
  unfold SurviveSensorActivations_add_imu
  dsimp only
  split_ifs <;> simp

/-- One ingest call, seen from the tracker of `(lh, axis)`: a call that feeds it makes its
count positive, any other call leaves its count and deviation as they were. -/
theorem ingest_center (E : Env) (w w1 : Globals × SurviveSensorActivations) (op : Ingest)
    (lh axis : Int) (h : ingest E w op = some w1) (h0 : 0 ≤ w.2.angles_center_cnt lh axis) :
    (feeds_center E lh axis op = true → 1 ≤ w1.2.angles_center_cnt lh axis) ∧
    (feeds_center E lh axis op = false →
      w1.2.angles_center_cnt lh axis = w.2.angles_center_cnt lh axis ∧
      w1.2.angles_center_dev lh axis = w.2.angles_center_dev lh axis) := by
  cases op with
  | imu imuData =>
    simp only [ingest, Option.some.injEq] at h
    subst h
    obtain ⟨e1, e2, _⟩ := add_imu_fields E w.1 w.2 imuData
    refine ⟨fun hf => by simp [feeds_center] at hf, fun _ => ?_⟩
    dsimp only
    rw [e1, e2]
    exact ⟨rfl, rfl⟩
  | gen2 ev =>
    simp only [ingest, Option.some.injEq] at h
    subst h
    obtain ⟨g1, g2, _⟩ := add_gen2_fields E w.1 w.2 ev
    dsimp only
    constructor
    · intro hf
      simp only [feeds_center, decide_eq_true_eq] at hf
      obtain ⟨alpha, c1, _⟩ := g1 ⟨hf.1, hf.2.1⟩
      rw [c1]
      exact (update_center_at { w.2 with lh_gen := 1 } alpha ev.common.lh ev.plane _ _ lh
        axis).1 ⟨hf.2.2.1.symm, hf.2.2.2.symm⟩ h0
    · intro hf
      simp only [feeds_center, decide_eq_false_iff_not] at hf
      by_cases hrun : ev.common.hdr.pt = PoserType.POSERDATA_LIGHT_GEN2 ∧
          ev.common.sensor_id < E.SENSORS_PER_OBJECT
      · obtain ⟨alpha, c1, c2⟩ := g1 hrun
        rw [c1, c2]
        exact (update_center_at { w.2 with lh_gen := 1 } alpha ev.common.lh ev.plane _ _ lh
          axis).2 (fun hh => hf ⟨hrun.1, hrun.2, hh.1.symm, hh.2.symm⟩)
      · obtain ⟨c1, c2⟩ := g2 hrun
        rw [c1, c2]
        exact ⟨rfl, rfl⟩
  | gen1 ev =>
    simp only [ingest, Option.map_eq_some'] at h
    obtain ⟨r, hr, rfl⟩ := h
    obtain ⟨⟨alpha, c1, c2⟩, _⟩ := add_fields E w.1 w.2 ev r hr
    dsimp only
    rw [c1, c2]
    constructor
    · intro hf
      simp only [feeds_center, decide_eq_true_eq] at hf
      exact (update_center_at { w.2 with lh_gen := 0 } alpha ev.common.lh (ev.acode % 2) _ _ lh
        axis).1 ⟨hf.1.symm, hf.2.symm⟩ h0
    · intro hf
      simp only [feeds_center, decide_eq_false_iff_not] at hf
      exact (update_center_at { w.2 with lh_gen := 0 } alpha ev.common.lh (ev.acode % 2) _ _ lh
        axis).2 (fun hh => hf ⟨hh.1.symm, hh.2.symm⟩)

/-- A sequence of ingest calls, seen from the tracker of `(lh, axis)`: its count is 0 at the
end exactly when it was 0 at the start and no call fed it, and then its deviation is the one
it started with. -/
theorem ingest_all_center (E : Env) (ops : List Ingest) (lh axis : Int)
    (w w1 : Globals × SurviveSensorActivations) (h : ingest_all E w ops = some w1)
    (h0 : 0 ≤ w.2.angles_center_cnt lh axis) :
    (w1.2.angles_center_cnt lh axis = 0 ↔
      (w.2.angles_center_cnt lh axis = 0 ∧ ∀ op ∈ ops, feeds_center E lh axis op = false)) ∧
    (w1.2.angles_center_cnt lh axis = 0 →
      w1.2.angles_center_dev lh axis = w.2.angles_center_dev lh axis) := by
  induction ops generalizing w with
  | nil =>
    simp only [ingest_all, Option.some.injEq] at h
    subst h
    simp
  | cons op rest ih =>
    simp only [ingest_all] at h
    cases hop : ingest E w op with
    | none => rw [hop] at h; simp at h
    | some w2 =>
      rw [hop] at h
      simp only at h
      obtain ⟨s1, s2⟩ := ingest_center E w w2 op lh axis hop h0
      cases hf : feeds_center E lh axis op
      · obtain ⟨e1, e2⟩ := s2 hf
        obtain ⟨i1, i2⟩ := ih w2 h (by rw [e1]; exact h0)
        rw [e1] at i1
        rw [e2] at i2
        refine ⟨?_, i2⟩
        rw [i1]
        constructor
        · rintro ⟨a, b⟩
          refine ⟨a, fun o ho => ?_⟩
          rcases List.mem_cons.mp ho with rfl | ho
          · exact hf
          · exact b o ho
        · rintro ⟨a, b⟩
          exact ⟨a, fun o ho => b o (List.mem_cons_of_mem _ ho)⟩
      · have hpos := s1 hf
        obtain ⟨i1, _⟩ := ih w2 h (by omega)
        have hne : ¬ w1.2.angles_center_cnt lh axis = 0 := by
          rw [i1]; intro hh; omega
        refine ⟨?_, fun hh => absurd hh hne⟩
        constructor
        · intro hh; exact absurd hh hne
        · rintro ⟨_, b⟩
          have := b op (List.mem_cons_self _ _)
          rw [hf] at this
          exact absurd this (by simp)

/-- C18, as stated, fails: one generation-2 event given to a reset ledger leaves the tracker of
lighthouse 0, axis 0 with count 1 and a deviation that still compares equal to 0. -/
theorem count_one_deviation_zero :
    (ingest_all Env.reference
      (scenario_globals, SurviveSensorActivations_reset Env.reference scenario_fresh)
      [Ingest.gen2 (gen2_event 0 0 0 1000000 (FLT.lit 2 10))]).map
      (fun w => (w.2.angles_center_cnt 0 0, FLT.eq (w.2.angles_center_dev 0 0) (FLT.ofInt 0)))
      = some (1, true) := by
  decide

/-- C18, amended: in every state reachable from reset by a sequence of ingest calls, for every
lighthouse and axis, `angles_center_cnt` is 0 if and only if no call has fed a sample to the
center tracker of that lighthouse and axis, and when it is 0 `angles_center_dev` is `0.0` and
compares equal to 0.  The converse does not hold: a deviation of 0 says nothing of the
count. -/
theorem center_count_zero_iff_unfed (E : Env) (G : Globals) (mem : SurviveSensorActivations)
    (ops : List Ingest) (w1 : Globals × SurviveSensorActivations) (lh axis : Int)
    (h : ingest_all E (G, SurviveSensorActivations_reset E mem) ops = some w1) :
    (w1.2.angles_center_cnt lh axis = 0 ↔ ∀ op ∈ ops, feeds_center E lh axis op = false) ∧
    (w1.2.angles_center_cnt lh axis = 0 →
      w1.2.angles_center_dev lh axis = FLT.zero ∧
      FLT.eq (w1.2.angles_center_dev lh axis) (FLT.ofInt 0) = true) := by
  obtain ⟨i1, i2⟩ := ingest_all_center E ops lh axis
    (G, SurviveSensorActivations_reset E mem) w1 h (le_refl _)
  constructor
  · rw [i1]
    exact ⟨fun hh => hh.2, fun hh => ⟨rfl, hh⟩⟩
  · intro hz
    have hd : w1.2.angles_center_dev lh axis = FLT.zero := i2 hz
    exact ⟨hd, by rw [hd]; exact eq_zero_zero⟩

theorem center_count_zero_iff_unfed_witness :
    (SurviveSensorActivations_add_gen2 Env.reference scenario_globals
      (SurviveSensorActivations_reset Env.reference scenario_fresh)
      (gen2_event 0 0 0 1000000 (FLT.lit 2 10))).2.angles_center_cnt 0 1 = 0 ∧
    (SurviveSensorActivations_add_gen2 Env.reference scenario_globals
      (SurviveSensorActivations_reset Env.reference scenario_fresh)
      (gen2_event 0 0 0 1000000 (FLT.lit 2 10))).2.angles_center_dev 0 1 = FLT.zero :=
  ⟨((center_count_zero_iff_unfed Env.reference scenario_globals scenario_fresh
      [Ingest.gen2 (gen2_event 0 0 0 1000000 (FLT.lit 2 10))] _ 0 1 rfl).1).2 (by decide),
   (((center_count_zero_iff_unfed Env.reference scenario_globals scenario_fresh
      [Ingest.gen2 (gen2_event 0 0 0 1000000 (FLT.lit 2 10))] _ 0 1 rfl).2) (by decide)).1⟩

/-- One ingest call keeps `last_movement` at or before the later of `last_light` and
`last_imu`, when an IMU sample does not carry an earlier timecode than `last_imu`; and
`last_imu` is the timecode of an IMU sample, and as before after a light event. -/
theorem ingest_last_movement (E : Env) (w w1 : Globals × SurviveSensorActivations)
    (op : Ingest) (h : ingest E w op = some w1)
    (hinv : w.2.last_movement ≤ SurviveSensorActivations_last_time w.2)
    (himu : ∀ t ∈ imu_timecodes [op], w.2.last_imu ≤ t) :
    w1.2.last_movement ≤ SurviveSensorActivations_last_time w1.2 ∧
    (∀ t ∈ imu_timecodes [op], w1.2.last_imu = t) ∧
    (imu_timecodes [op] = [] → w1.2.last_imu = w.2.last_imu) := by
  unfold SurviveSensorActivations_last_time at hinv ⊢
  cases op with
  | imu imuData =>
    simp only [ingest, Option.some.injEq] at h
    subst h
    obtain ⟨_, _, e3, e4, e5⟩ := add_imu_fields E w.1 w.2 imuData
    have hle := himu imuData.hdr.timecode (by simp [imu_timecodes])
    dsimp only
    rw [e3, e4]
    refine ⟨?_, ?_, ?_⟩
    · rcases e5 with e5 | e5 <;> rw [e5] <;> split_ifs at hinv ⊢ <;> omega
    · intro t ht
      simp [imu_timecodes] at ht
      exact ht.symm
    · intro hh
      simp [imu_timecodes] at hh
  | gen2 ev =>
    simp only [ingest, Option.some.injEq] at h
    subst h
    obtain ⟨_, _, e3, e4, e5⟩ := add_gen2_fields E w.1 w.2 ev
    dsimp only
    rw [e3]
    refine ⟨?_, ?_, fun _ => rfl⟩
    · rcases e5 with e5 | e5
      · rw [e5]; split_ifs at hinv ⊢ <;> omega
      · split_ifs <;> omega
    · intro t ht
      simp [imu_timecodes] at ht
  | gen1 ev =>
    simp only [ingest, Option.map_eq_some'] at h
    obtain ⟨r, hr, rfl⟩ := h
    obtain ⟨_, e3, e4, e5⟩ := add_fields E w.1 w.2 ev r hr
    dsimp only
    rw [e3]
    refine ⟨?_, ?_, fun _ => rfl⟩
    · rcases e5 with e5 | e5
      · rw [e5]; split_ifs at hinv ⊢ <;> omega
      · split_ifs <;> omega
    · intro t ht
      simp [imu_timecodes] at ht

/-- A sequence of ingest calls whose IMU timecodes, with `last_imu` before them, never
decrease keeps `last_movement` at or before the later of `last_light` and `last_imu`. -/
theorem ingest_all_last_movement (E : Env) (ops : List Ingest)
    (w w1 : Globals × SurviveSensorActivations) (h : ingest_all E w ops = some w1)
    (hinv : w.2.last_movement ≤ SurviveSensorActivations_last_time w.2)
    (hch : List.Chain (fun a b => a ≤ b) w.2.last_imu (imu_timecodes ops)) :
    w1.2.last_movement ≤ SurviveSensorActivations_last_time w1.2 := by
  induction ops generalizing w with
  | nil =>
    simp only [ingest_all, Option.some.injEq] at h
    subst h
    exact hinv
  | cons op rest ih =>
    simp only [ingest_all] at h
    cases hop : ingest E w op with
    | none => rw [hop] at h; simp at h
    | some w2 =>
      rw [hop] at h
      simp only at h
      cases op with
      | imu imuData =>
        simp only [imu_timecodes, List.chain_cons] at hch
        obtain ⟨s1, s2, _⟩ := ingest_last_movement E w w2 (Ingest.imu imuData) hop hinv
          (by intro t ht; simp [imu_timecodes] at ht; rw [ht]; exact hch.1)
        have hl : w2.2.last_imu = imuData.hdr.timecode :=
          s2 imuData.hdr.timecode (by simp [imu_timecodes])
        exact ih w2 h s1 (by rw [hl]; exact hch.2)
      | gen2 ev =>
        simp only [imu_timecodes] at hch
        obtain ⟨s1, _, s3⟩ := ingest_last_movement E w w2 (Ingest.gen2 ev) hop hinv
          (by intro t ht; simp [imu_timecodes] at ht)
        exact ih w2 h s1 (by rw [s3 (by simp [imu_timecodes])]; exact hch)
      | gen1 ev =>
        simp only [imu_timecodes] at hch
        obtain ⟨s1, _, s3⟩ := ingest_last_movement E w w2 (Ingest.gen1 ev) hop hinv
          (by intro t ht; simp [imu_timecodes] at ht)
        exact ih w2 h s1 (by rw [s3 (by simp [imu_timecodes])]; exact hch)

/-- C20: in every state reachable from reset by a sequence of
`SurviveSensorActivations_add_imu`, `SurviveSensorActivations_add_gen2` and
`SurviveSensorActivations_add` calls whose IMU timecodes never decrease, `last_movement` is at
most the later of `last_light` and `last_imu`; so the assertion of
`SurviveSensorActivations_stationary_time` holds, and the function returns the difference of
the two (or 0 while `last_movement` is 0) without underflow. -/
theorem stationary_time_assertion_holds (E : Env) (G : Globals)
    (mem : SurviveSensorActivations) (ops : List Ingest)
    (w1 : Globals × SurviveSensorActivations)
    (h : ingest_all E (G, SurviveSensorActivations_reset E mem) ops = some w1)
    (hmono : List.Chain' (fun a b => a ≤ b) (imu_timecodes ops)) :
    w1.2.last_movement ≤ SurviveSensorActivations_last_time w1.2 ∧
    SurviveSensorActivations_stationary_time w1.2 =
      some (if w1.2.last_movement = 0 then 0
        else SurviveSensorActivations_last_time w1.2 - w1.2.last_movement) := by
  have hch : List.Chain (fun a b => a ≤ b)
      (G, SurviveSensorActivations_reset E mem).2.last_imu (imu_timecodes ops) := by
    show List.Chain (fun a b => a ≤ b) 0 (imu_timecodes ops)
    cases hl : imu_timecodes ops with
    | nil => exact List.Chain.nil
    | cons x xs =>
      rw [hl] at hmono
      exact List.Chain.cons (Nat.zero_le _) hmono
  have hinv := ingest_all_last_movement E ops (G, SurviveSensorActivations_reset E mem) w1 h
    (Nat.zero_le _) hch
  refine ⟨hinv, ?_⟩
  unfold SurviveSensorActivations_stationary_time
  dsimp only
  split_ifs <;> rfl

theorem stationary_time_assertion_holds_witness :
    SurviveSensorActivations_stationary_time
      (SurviveSensorActivations_add_imu Env.linmath scenario_globals
        (SurviveSensorActivations_add_gen2 Env.linmath scenario_globals
          (SurviveSensorActivations_add_gen2 Env.linmath scenario_globals
            (SurviveSensorActivations_reset Env.linmath scenario_fresh)
            (gen2_event 0 0 0 1000000 (FLT.lit 2 10))).2
          (gen2_event 0 0 0 1500000 (FLT.lit 52 10))).2
        moving_sample) = some 0 :=
  ((stationary_time_assertion_holds Env.linmath scenario_globals scenario_fresh
    [Ingest.gen2 (gen2_event 0 0 0 1000000 (FLT.lit 2 10)),
     Ingest.gen2 (gen2_event 0 0 0 1500000 (FLT.lit 52 10)),
     Ingest.imu moving_sample] _ rfl (by simp [imu_timecodes])).2).trans (by decide)
